/-
Verification of the ETL-Project transformation core against its
natural-language specification.

The development shallowly embeds the repository's pandas-based code:
a materialized table is an ordered list of rows, each row an ordered
association list from column name to a scalar `Value`; null (pandas
NaN/NaT/None) is the explicit value `Value.null`.  Operations of
`src/transformers/data_transformer.py`, the two domain transformers and
`src/loaders/snowflake_loader.py` are translated function by function.
Fallible pandas calls (KeyError on a missing subset column,
`pd.to_datetime` without `errors="coerce"`, `astype("Int64")` on a
non-integral float column) are embedded in `Except String`.
-/
import Mathlib

set_option maxHeartbeats 1000000

/-- A calendar date: year, month (1..12), day (1..31). -/
structure Date where
  year : Int
  month : Int
  day : Int
deriving DecidableEq, Repr

/-- A scalar cell value of a materialized table.  `dt` is a timestamp
(date plus seconds within the day, as produced by `pd.to_datetime`);
`date` is a date-only value (as produced by `.dt.date`). -/
inductive Value where
  | null : Value
  | str : String → Value
  | num : ℚ → Value
  | boolean : Bool → Value
  | dt : Date → Nat → Value
  | date : Date → Value
deriving DecidableEq, Repr

/-- Is this cell null (pandas NaN/NaT/None)? -/
def Value.isNull : Value → Bool
  | .null => true
  | _ => false

/-- A row: an ordered association list from column name to value. -/
abbrev Row : Type := List (String × Value)

/-- Value of a row at a column; a missing column reads as null. -/
def Row.valueAt (r : Row) (c : String) : Value :=
  match List.lookup c r with
  | some v => v
  | none => Value.null

/-- Projection of a row onto a list of columns (the join/dedup key). -/
def Row.proj (r : Row) (cs : List String) : List Value :=
  cs.map (fun c => r.valueAt c)

/-- Overwrite column `c` of a row if present, else append it at the end
(pandas `df[c] = ...` column assignment, rowwise). -/
def Row.setCol (r : Row) (c : String) (v : Value) : Row :=
  if (List.lookup c r).isSome then
    r.map (fun p => if p.1 = c then (p.1, v) else p)
  else
    r ++ [(c, v)]

/-- Apply `f` to the value of column `c` in a row, leaving other columns
unchanged. -/
def Row.mapCol (r : Row) (c : String) (f : Value → Value) : Row :=
  r.map (fun p => if p.1 = c then (p.1, f p.2) else p)

/-- Drop the entries of a row whose column is in `cs`
(pandas `df.drop(columns=cs)`, rowwise). -/
def Row.dropCols (r : Row) (cs : List String) : Row :=
  r.filter (fun p => !(cs.contains p.1))

/-- A materialized table: a column schema plus an ordered list of rows.
A pandas DataFrame keeps its column index even with zero rows, so the
schema is carried separately from the rows. -/
structure Table where
  cols : List String
  rows : List Row
deriving DecidableEq

/-- Well-formedness: every row's key sequence is exactly the schema. -/
def Table.WF (t : Table) : Prop :=
  ∀ r ∈ t.rows, r.map Prod.fst = t.cols

instance (t : Table) : Decidable t.WF :=
  inferInstanceAs (Decidable (∀ r ∈ t.rows, r.map Prod.fst = t.cols))

/-- Pointwise column map over a whole table. -/
def Table.mapCol (t : Table) (c : String) (f : Value → Value) : Table :=
  ⟨t.cols, t.rows.map (fun r => r.mapCol c f)⟩

/-- Column assignment `df[c] = ...` with a per-row value: overwrites the
column if present, else appends it to the schema. -/
def Table.setCol (t : Table) (c : String) (f : Row → Value) : Table :=
  ⟨if t.cols.contains c then t.cols else t.cols ++ [c],
   t.rows.map (fun r => r.setCol c (f r))⟩

/-- Drop columns from a table (pandas `df.drop(columns=cs)`). -/
def Table.dropCols (t : Table) (cs : List String) : Table :=
  ⟨t.cols.filter (fun c => !(cs.contains c)), t.rows.map (fun r => r.dropCols cs)⟩

/- ===== text helpers (over `String.data`, so they compute) ===== -/

/-- Python `str.upper()` on the character list of a string. -/
def upperStr (s : String) : String := ⟨s.data.map Char.toUpper⟩

/-- Python `str.lower()`. -/
def lowerStr (s : String) : String := ⟨s.data.map Char.toLower⟩

/-- Helper for `titleStr`: `prev` records whether the previous character
was alphabetic. -/
def titleAux : Bool → List Char → List Char
  | _, [] => []
  | prev, c :: cs =>
    (if c.isAlpha then (if prev then c.toLower else c.toUpper) else c)
      :: titleAux c.isAlpha cs

/-- Python `str.title()`: first letter of each alphabetic run uppercased,
the rest lowercased. -/
def titleStr (s : String) : String := ⟨titleAux false s.data⟩

/-- Python `str.strip()`: remove leading and trailing whitespace. -/
def stripStr (s : String) : String :=
  ⟨((s.data.dropWhile Char.isWhitespace).reverse.dropWhile Char.isWhitespace).reverse⟩

/- ===== numeric and date parsing =====

`pd.to_numeric` and `pd.to_datetime` are pandas primitives; the model
parses the decimal and `YYYY-MM-DD[ hh:mm:ss]` forms the repository's
data uses.  A string outside these forms is a parse failure, as in
pandas. -/

/-- Digits of a nonempty all-digit character list, as a number. -/
def digitsVal : List Char → Option Nat
  | [] => none
  | cs => if cs.all Char.isDigit
          then some (cs.foldl (fun a c => a * 10 + (c.toNat - 48)) 0)
          else none

/-- Split a character list at a separator character. -/
def splitCh (sep : Char) : List Char → List (List Char)
  | [] => [[]]
  | c :: cs =>
    let r := splitCh sep cs
    if c = sep then [] :: r
    else
      match r with
      | [] => [[c]]
      | g :: gs => (c :: g) :: gs

/-- Parse a decimal literal (optional sign, optional fractional part)
as a rational, the numeric strings `pd.to_numeric` accepts. -/
def parseRat (cs : List Char) : Option ℚ :=
  let (sign, body) :=
    match cs with
    | '-' :: rest => ((-1 : Int), rest)
    | '+' :: rest => ((1 : Int), rest)
    | _ => ((1 : Int), cs)
  match splitCh '.' body with
  | [intPart] =>
    match digitsVal intPart with
    | some n => some (mkRat (sign * n) 1)
    | none => none
  | [intPart, fracPart] =>
    if intPart.isEmpty ∧ fracPart.isEmpty then none
    else if (intPart.isEmpty ∨ (digitsVal intPart).isSome)
        ∧ (fracPart.isEmpty ∨ (digitsVal fracPart).isSome) then
      let i := (digitsVal intPart).getD 0
      let f := (digitsVal fracPart).getD 0
      some (mkRat (sign * (i * 10 ^ fracPart.length + f)) (10 ^ fracPart.length))
    else none
  | _ => none

/-- Number of days in a month, with the Gregorian leap-year rule. -/
def daysInMonth (y m : Int) : Int :=
  if m = 2 then
    if y % 4 = 0 ∧ (y % 100 ≠ 0 ∨ y % 400 = 0) then 29 else 28
  else if m = 4 ∨ m = 6 ∨ m = 9 ∨ m = 11 then 30
  else 31

/-- Parse `YYYY-MM-DD` into a valid calendar date. -/
def parseDateChars (cs : List Char) : Option Date :=
  match splitCh '-' cs with
  | [yc, mc, dc] =>
    match digitsVal yc, digitsVal mc, digitsVal dc with
    | some y, some m, some d =>
      if 1 ≤ (m : Int) ∧ (m : Int) ≤ 12 ∧ 1 ≤ (d : Int) ∧ (d : Int) ≤ daysInMonth y m
      then some ⟨(y : Int), (m : Int), (d : Int)⟩
      else none
    | _, _, _ => none
  | _ => none

/-- Parse `hh:mm:ss` into seconds within the day. -/
def parseTimeChars (cs : List Char) : Option Nat :=
  match splitCh ':' cs with
  | [hc, mc, sc] =>
    match digitsVal hc, digitsVal mc, digitsVal sc with
    | some h, some m, some s =>
      if h < 24 ∧ m < 60 ∧ s < 60 then some (h * 3600 + m * 60 + s) else none
    | _, _, _ => none
  | _ => none

/-- Parse a timestamp string `YYYY-MM-DD` or `YYYY-MM-DD hh:mm:ss`. -/
def parseTimestampChars (cs : List Char) : Option (Date × Nat) :=
  match splitCh ' ' cs with
  | [dc] => (parseDateChars dc).map (fun d => (d, 0))
  | [dc, tc] =>
    match parseDateChars dc, parseTimeChars tc with
    | some d, some t => some (d, t)
    | _, _ => none
  | _ => none

/-- Model of `pd.to_numeric(v, errors="coerce")` on one cell: numbers pass
through, booleans become 1/0, parseable strings become numbers, and
everything unparseable (or null) becomes null — never an error. -/
def numCoerce : Value → Value
  | .null => .null
  | .num q => .num q
  | .boolean b => .num (if b then 1 else 0)
  | .str s =>
    match parseRat s.data with
    | some q => .num q
    | none => .null
  | .dt _ _ => .null
  | .date _ => .null

/-- Model of `pd.to_datetime(v)` on one cell, with the default `errors="raise"`:
null stays null (NaT), timestamps and dates pass through, a parseable
string becomes a timestamp, and an unparseable value raises. -/
def toDatetimeVal : Value → Except String Value
  | .null => .ok .null
  | .dt d s => .ok (.dt d s)
  | .date d => .ok (.dt d 0)
  | .str s =>
    match parseTimestampChars s.data with
    | some (d, t) => .ok (.dt d t)
    | none => .error "to_datetime: unable to parse"
  | .num _ => .error "to_datetime: unsupported scalar in model"
  | .boolean _ => .error "to_datetime: boolean"

instance {ε α : Type} [DecidableEq ε] [DecidableEq α] :
    DecidableEq (Except ε α)
  | .ok x, .ok y =>
    if h : x = y then .isTrue (by rw [h]) else .isFalse (by simp [h])
  | .ok _, .error _ => .isFalse (by simp)
  | .error _, .ok _ => .isFalse (by simp)
  | .error e, .error f =>
    if h : e = f then .isTrue (by rw [h]) else .isFalse (by simp [h])

/-- Apply a fallible cell function to one column of a row, entry by
entry: the entries of column `c` go through `f`, the rest pass. -/
def entriesMapColM (c : String) (f : Value → Except String Value) :
    Row → Except String Row
  | [] => .ok []
  | p :: ps =>
    match (if p.1 = c then (f p.2).map (fun v => (p.1, v)) else .ok p) with
    | .error e => .error e
    | .ok q =>
      match entriesMapColM c f ps with
      | .error e => .error e
      | .ok qs => .ok (q :: qs)

/-- Apply a fallible cell function to one column of every row. -/
def rowsMapColM (c : String) (f : Value → Except String Value) :
    List Row → Except String (List Row)
  | [] => .ok []
  | r :: rs =>
    match entriesMapColM c f r with
    | .error e => .error e
    | .ok r2 =>
      match rowsMapColM c f rs with
      | .error e => .error e
      | .ok rs2 => .ok (r2 :: rs2)

/-- Apply a fallible cell function to one column of a table. -/
def Table.mapColM (t : Table) (c : String) (f : Value → Except String Value) :
    Except String Table :=
  match rowsMapColM c f t.rows with
  | .error e => .error e
  | .ok rs => .ok ⟨t.cols, rs⟩

/-- Model of `pd.to_datetime(df[c])`: convert the whole column, raising if any
cell fails to parse. -/
def Table.toDatetimeCol (t : Table) (c : String) : Except String Table :=
  t.mapColM c toDatetimeVal

/- ===== src/transformers/data_transformer.py ===== -/

namespace DataTransformer

/-- Embedding of `drop_nulls(columns, how)` (data_transformer.py:50-68), i.e.
`df.dropna(subset=columns, how=how)`.  pandas raises `KeyError` when a
subset column is absent; `columns=None` means the whole schema;
`how="all"` drops a row only when every considered value is null,
anything else behaves as `"any"`. -/
def drop_nulls (t : Table) (columns : Option (List String)) (how : String) :
    Except String Table :=
  let cs := columns.getD t.cols
  if columns.isSome ∧ ¬ cs.all (fun c => t.cols.contains c) then
    .error "KeyError: subset column not found"
  else
    let keep : Row → Bool := fun r =>
      if how = "all" then cs.any (fun c => !(Row.valueAt r c).isNull)
      else cs.all (fun c => !(Row.valueAt r c).isNull)
    .ok ⟨t.cols, t.rows.filter keep⟩

/-- Embedding of `fill_nulls(fill_values)` (data_transformer.py:70-85), i.e.
`df.fillna(dict)`: null cells in the named columns take the given value;
columns absent from the table are ignored. -/
def fill_nulls (t : Table) (fill_values : List (String × Value)) : Table :=
  ⟨t.cols,
   t.rows.map (fun r => r.map (fun p =>
     if p.2.isNull then
       match List.lookup p.1 fill_values with
       | some v => (p.1, v)
       | none => p
     else p))⟩

/-- First-occurrence deduplication by key projection, with the set of
keys already seen. -/
def dedupFirst (cs : List String) : List Row → List (List Value) → List Row
  | [], _ => []
  | r :: rs, seen =>
    let k := Row.proj r cs
    if seen.contains k then dedupFirst cs rs seen
    else r :: dedupFirst cs rs (k :: seen)

/-- Embedding of `drop_duplicates(columns, keep)` (data_transformer.py:87-105), i.e.
`df.drop_duplicates(subset=columns, keep=keep)`.  pandas raises
`KeyError` on an absent subset column; `keep="first"`/`"last"` keep that
occurrence of each duplicate group, and `keep=False` (any other string
here) drops every member of a group of size > 1. -/
def drop_duplicates (t : Table) (columns : Option (List String))
    (keep : String) : Except String Table :=
  let cs := columns.getD t.cols
  if columns.isSome ∧ ¬ cs.all (fun c => t.cols.contains c) then
    .error "KeyError: subset column not found"
  else if keep = "first" then
    .ok ⟨t.cols, dedupFirst cs t.rows []⟩
  else if keep = "last" then
    .ok ⟨t.cols, (dedupFirst cs t.rows.reverse []).reverse⟩
  else
    .ok ⟨t.cols,
      t.rows.filter (fun r =>
        t.rows.countP (fun r2 => Row.proj r2 cs = Row.proj r cs) = 1)⟩

/-- Embedding of `rename_columns(column_mapping)` (data_transformer.py:107-122), i.e.
`df.rename(columns=mapping)`: names in the mapping are replaced, others
pass through. -/
def rename_columns (t : Table) (column_mapping : List (String × String)) :
    Table :=
  let rn : String → String := fun c => (List.lookup c column_mapping).getD c
  ⟨t.cols.map rn, t.rows.map (fun r => r.map (fun p => (rn p.1, p.2)))⟩

/-- Embedding of `select_columns(columns)` (data_transformer.py:124-139), i.e.
`df[columns]`: keeps exactly the named columns in the given order;
pandas raises `KeyError` when one is absent. -/
def select_columns (t : Table) (columns : List String) :
    Except String Table :=
  if columns.all (fun c => t.cols.contains c) then
    .ok ⟨columns,
         t.rows.map (fun r => columns.map (fun c => (c, r.valueAt c)))⟩
  else .error "KeyError: column not found"

/-- Embedding of `add_column(column_name, value)` (data_transformer.py:141-161):
a callable is applied per row (`df.apply(value, axis=1)`), anything else
is assigned as a constant. -/
def add_column (t : Table) (column_name : String)
    (value : Value ⊕ (Row → Value)) : Table :=
  match value with
  | .inl v => t.setCol column_name (fun _ => v)
  | .inr f => t.setCol column_name f

/-- The target kinds of `convert_types` handled by the code's three
structured branches (data_transformer.py:178-185); the fall-through
`astype(dtype)` branch for other dtype strings is outside the model. -/
inductive DType where
  | datetime : DType
  | float : DType
  | int : DType
deriving DecidableEq, Repr

/-- One column conversion step of `convert_types`: a missing column is
skipped; `datetime` is `pd.to_datetime` (raises on a bad value);
`float` is `pd.to_numeric(errors="coerce")` (bad values become null);
`int` is `pd.to_numeric(errors="coerce").astype("Int64")`, which nulls
unparseable values but raises when a parsed value is non-integral. -/
def convertOne (t : Table) (c : String) : DType → Except String Table
  | .datetime =>
    if t.cols.contains c then t.toDatetimeCol c else .ok t
  | .float =>
    if t.cols.contains c then .ok (t.mapCol c numCoerce) else .ok t
  | .int =>
    if t.cols.contains c then
      let t' := t.mapCol c numCoerce
      if t'.rows.all (fun r => match Row.valueAt r c with
          | .null => true
          | .num q => q.den = 1
          | _ => false) then
        .ok t'
      else .error "cannot safely cast non-equivalent float to Int64"
    else .ok t

/-- Embedding of `convert_types(type_mapping)` (data_transformer.py:163-189): the
mapping's conversions applied in order; the first raising conversion
aborts the loop. -/
def convert_types (t : Table) : List (String × DType) → Except String Table
  | [] => .ok t
  | (c, k) :: rest =>
    match convertOne t c k with
    | .error e => .error e
    | .ok t2 => convert_types t2 rest

/-- Embedding of `filter_rows(condition)` (data_transformer.py:191-210) with a
callable condition, taken rowwise: keep the rows satisfying it. -/
def filter_rows (t : Table) (condition : Row → Bool) : Table :=
  ⟨t.cols, t.rows.filter condition⟩

/-- One cell of `standardize_text`: the `.str` accessor maps non-string
non-null values to NaN, strings through the case function. -/
def caseCell (f : String → String) : Value → Value
  | .null => .null
  | .str s => .str (f s)
  | _ => .null

/-- One column of `standardize_text`: if the column exists, apply
upper/lower/title casing (no case change for an unrecognized `case`),
then `.str.strip()`. -/
def stdOneCol (acc : Table) (c : String) (case : String) : Table :=
  if acc.cols.contains c then
    let acc2 :=
      if case = "upper" then acc.mapCol c (caseCell upperStr)
      else if case = "lower" then acc.mapCol c (caseCell lowerStr)
      else if case = "title" then acc.mapCol c (caseCell titleStr)
      else acc
    acc2.mapCol c (caseCell stripStr)
  else acc

/-- Embedding of `standardize_text(columns, case)` (data_transformer.py:212-237):
the per-column standardization folded over the listed columns. -/
def standardize_text (t : Table) (columns : List String) (case : String) :
    Table :=
  columns.foldl (fun acc c => stdOneCol acc c case) t

/-- Embedding of `get_result()` (data_transformer.py:38-48): yields the wrapped
table. -/
def get_result (t : Table) : Table := t

end DataTransformer

/- ===== src/transformers/weather_transformer.py ===== -/

namespace WeatherTransformer

/-- The additive severity score of one weather row
(weather_transformer.py:170-195): each of temperature, precipitation and
wind contributes 2 in its extreme band, 1 in its elevated band, and 0
when the field is absent, null or non-numeric. -/
def severity_score (row : Row) : Nat :=
  let tempPart :=
    match Row.valueAt row "TEMPERATURE_F" with
    | .num temp => if temp < 32 ∨ temp > 100 then 2
                   else if temp < 40 ∨ temp > 90 then 1 else 0
    | _ => 0
  let precipPart :=
    match Row.valueAt row "PRECIPITATION_INCHES" with
    | .num precip =>
      -- the source's elevated band is `precip > 0.5`
      if precip > 1 then 2 else if precip > mkRat 1 2 then 1 else 0
    | _ => 0
  let windPart :=
    match Row.valueAt row "WIND_SPEED_MPH" with
    | .num wind => if wind > 30 then 2 else if wind > 15 then 1 else 0
    | _ => 0
  tempPart + precipPart + windPart

/-- Embedding of `calculate_severity(row)` (weather_transformer.py:197-203): the
score bucketed into SEVERE (≥4), MODERATE (≥2) and NORMAL. -/
def calculate_severity (row : Row) : String :=
  if severity_score row ≥ 4 then "SEVERE"
  else if severity_score row ≥ 2 then "MODERATE"
  else "NORMAL"

/-- Embedding of `add_weather_severity()` (weather_transformer.py:163-207): assigns
the per-row classification to a new `WEATHER_SEVERITY` column. -/
def add_weather_severity (t : Table) : Table :=
  t.setCol "WEATHER_SEVERITY" (fun r => .str (calculate_severity r))

/-- Model of `.dt.date` on one cell: the date portion of a timestamp; NaT stays
null. -/
def dateOnly : Value → Value
  | .dt d _ => .date d
  | .date d => .date d
  | _ => .null

/-- Model of `.str.upper()` on one cell: strings are uppercased, anything else
(including null) becomes null under the `.str` accessor. -/
def upperCell : Value → Value
  | .str s => .str (upperStr s)
  | _ => .null

/-- The preparation phase of `correlate_with_purchases`
(weather_transformer.py:277-293): both tables are copied, their date
columns converted by `pd.to_datetime`, a `JOIN_DATE` column (date
portion) added to each, and, when both location columns exist, a
`JOIN_LOCATION` column (upper-cased location); the join key is the list
of synthetic columns. -/
def prepareCorrelate (weather purchase : Table)
    (weather_date_col purchase_date_col weather_location_col
     purchase_location_col : String) :
    Except String (Table × Table × List String) :=
  match weather.toDatetimeCol weather_date_col with
  | .error e => .error e
  | .ok w1 =>
    match purchase.toDatetimeCol purchase_date_col with
    | .error e => .error e
    | .ok p1 =>
      let w2 := w1.setCol "JOIN_DATE"
        (fun r => dateOnly (r.valueAt weather_date_col))
      let p2 := p1.setCol "JOIN_DATE"
        (fun r => dateOnly (r.valueAt purchase_date_col))
      if w2.cols.contains weather_location_col
          ∧ p2.cols.contains purchase_location_col then
        .ok (w2.setCol "JOIN_LOCATION"
            (fun r => upperCell (r.valueAt weather_location_col)),
          p2.setCol "JOIN_LOCATION"
            (fun r => upperCell (r.valueAt purchase_location_col)),
          ["JOIN_DATE", "JOIN_LOCATION"])
      else
        .ok (w2, p2, ["JOIN_DATE"])

/-- The right-side columns a pandas left merge appends: the right
schema minus the key columns, with names colliding with the left schema
suffixed. -/
def mergeRightCols (leftCols rightCols onCols : List String)
    (sfx : String) : List (String × String) :=
  (rightCols.filter (fun c => !(onCols.contains c))).map
    (fun c => (c, if leftCols.contains c then c ++ sfx else c))

/-- Output rows a pandas left merge produces for one left row: one row
per matching right row, or a single all-null right side when no right
row shares the key (pandas matches null keys with null keys). -/
def mergeRowsFor (right : Table) (onCols : List String)
    (rightOut : List (String × String)) (lr : Row) : List Row :=
  let ms := right.rows.filter (fun rr => Row.proj rr onCols = Row.proj lr onCols)
  if ms.isEmpty then
    [lr ++ rightOut.map (fun p => (p.2, Value.null))]
  else
    ms.map (fun rr => lr ++ rightOut.map (fun p => (p.2, Row.valueAt rr p.1)))

/-- Model of `left.merge(right, on=onCols, how="left", suffixes=("", sfx))`:
left columns keep their names and values; non-key right columns are
appended, suffixed on collision. -/
def leftMerge (left right : Table) (onCols : List String) (sfx : String) :
    Table :=
  let rightOut := mergeRightCols left.cols right.cols onCols sfx
  ⟨left.cols ++ rightOut.map Prod.snd,
   left.rows.flatMap (mergeRowsFor right onCols rightOut)⟩

/-- Embedding of `correlate_with_purchases(purchase_df, ...)`
(weather_transformer.py:256-308): prepare both sides, left-merge the
purchase rows with the weather rows on the synthetic key with suffixes
`("", "_WEATHER")`, then drop `JOIN_DATE` and, if present,
`JOIN_LOCATION`. -/
def correlate_with_purchases (weather purchase : Table)
    (weather_date_col purchase_date_col weather_location_col
     purchase_location_col : String) : Except String Table :=
  match prepareCorrelate weather purchase weather_date_col purchase_date_col
      weather_location_col purchase_location_col with
  | .error e => .error e
  | .ok (weatherDf, purchaseDf, mergeCols) =>
    let result := leftMerge purchaseDf weatherDf mergeCols "_WEATHER"
    let dropList := ["JOIN_DATE"] ++
      (if result.cols.contains "JOIN_LOCATION" then ["JOIN_LOCATION"] else [])
    .ok (result.dropCols dropList)

end WeatherTransformer

/- ===== src/transformers/purchase_order_transformer.py ===== -/

namespace PurchaseOrderTransformer

/-- Embedding of `categorize(amount)` (purchase_order_transformer.py:144-154): the
inner bucketing function; `none` models a NaN amount. -/
def categorize (amount : Option ℚ) : String :=
  match amount with
  | none => "UNKNOWN"
  | some a =>
    if a < 100 then "SMALL"
    else if a < 1000 then "MEDIUM"
    else if a < 10000 then "LARGE"
    else "ENTERPRISE"

/-- A cell as an amount: null is NaN, a number is itself; comparing any
other value with a number raises `TypeError` in Python. -/
def asAmount : Value → Except String (Option ℚ)
  | .null => .ok none
  | .num q => .ok (some q)
  | _ => .error "TypeError: amount is not numeric"

/-- Embedding of `categorize_orders(amount_column)`
(purchase_order_transformer.py:127-158): a missing amount column is a
logged no-op; otherwise `ORDER_CATEGORY` is assigned from the bucketing
function applied to each amount. -/
def categorize_orders (t : Table) (amount_column : String) :
    Except String Table :=
  if ¬ t.cols.contains amount_column then .ok t
  else
    (t.rows.mapM (fun r =>
      (asAmount (r.valueAt amount_column)).map (fun a =>
        Row.setCol r "ORDER_CATEGORY" (.str (categorize a))))).map
      (fun rs => ⟨if t.cols.contains "ORDER_CATEGORY" then t.cols
                  else t.cols ++ ["ORDER_CATEGORY"], rs⟩)

/-- The fiscal-year lambda (purchase_order_transformer.py:184-186):
the calendar year, minus one when the month precedes the fiscal start
month. -/
def fiscalYear (d : Date) (fiscal_year_start_month : Int) : Int :=
  if d.month ≥ fiscal_year_start_month then d.year else d.year - 1

/-- The fiscal-quarter lambda (purchase_order_transformer.py:189-191):
`((month - start_month) % 12) // 3 + 1` with Python's nonnegative `%`,
which is `Int.emod` for a positive modulus. -/
def fiscalQuarter (d : Date) (fiscal_year_start_month : Int) : Int :=
  ((d.month - fiscal_year_start_month) % 12) / 3 + 1

/-- The two per-cell derivations of `add_fiscal_info` applied to one
date cell; on NaT both derived fields are null. -/
def fiscalCell (f : Date → Int) : Value → Value
  | .dt d _ => .num (mkRat (f d) 1)
  | .date d => .num (mkRat (f d) 1)
  | _ => .null

/-- Embedding of `add_fiscal_info(date_column, fiscal_year_start_month)`
(purchase_order_transformer.py:160-194): a missing date column is a
logged no-op; otherwise the column is coerced by `pd.to_datetime`
(raising on a bad value) and `FISCAL_YEAR` / `FISCAL_QUARTER` are
assigned from the two lambdas. -/
def add_fiscal_info (t : Table) (date_column : String)
    (fiscal_year_start_month : Int) : Except String Table :=
  if ¬ t.cols.contains date_column then .ok t
  else
    match t.toDatetimeCol date_column with
    | .error e => .error e
    | .ok t1 =>
      .ok ((t1.setCol "FISCAL_YEAR"
        (fun r => fiscalCell (fun d => fiscalYear d fiscal_year_start_month)
          (r.valueAt date_column))).setCol "FISCAL_QUARTER"
        (fun r => fiscalCell (fun d => fiscalQuarter d fiscal_year_start_month)
          (r.valueAt date_column)))

end PurchaseOrderTransformer

/- ===== src/loaders/snowflake_loader.py ===== -/

/-- The warehouse visible to the loader: a finite map from table name to
stored table.  The Snowflake service itself is an external collaborator;
its statements (`write_pandas` with replace, `MERGE`,
`DROP TABLE IF EXISTS`) are modelled by their documented effects, and an
oracle flag stands for whether the warehouse accepts the merge
statement. -/
abbrev Warehouse := List (String × Table)

/-- Does a table of this name exist in the warehouse? -/
def Warehouse.hasTable (w : Warehouse) (n : String) : Bool :=
  (List.lookup n w).isSome

/-- Contents of a warehouse table, when present. -/
def Warehouse.getTable (w : Warehouse) (n : String) : Option Table :=
  List.lookup n w

/-- Create or replace a warehouse table. -/
def Warehouse.setTable (w : Warehouse) (n : String) (t : Table) : Warehouse :=
  if (List.lookup n w).isSome then
    w.map (fun p => if p.1 = n then (p.1, t) else p)
  else
    (n, t) :: w

/-- Model of `DROP TABLE IF EXISTS n`. -/
def Warehouse.dropTable (w : Warehouse) (n : String) : Warehouse :=
  w.filter (fun p => p.1 ≠ n)

namespace SnowflakeLoader

/-- The `UPDATE SET` clause of the merge statement applied to one
matched target row: every source column outside the merge keys is
overwritten from the source row (snowflake_loader.py:210-212, 220-221). -/
def updateRow (tr sr : Row) (srcCols : List String) (keys : List String) :
    Row :=
  (srcCols.filter (fun c => !(keys.contains c))).foldl
    (fun acc c => acc.setCol c (Row.valueAt sr c)) tr

/-- The `INSERT` branch applied to one unmatched source row: a new
target row carrying the source columns' values, null elsewhere
(snowflake_loader.py:213-214, 222-224). -/
def insertRow (targetCols srcCols : List String) (sr : Row) : Row :=
  targetCols.map (fun c =>
    (c, if srcCols.contains c then Row.valueAt sr c else Value.null))

/-- The effect of the `MERGE INTO target USING source ON keys` statement
(snowflake_loader.py:216-225): target rows whose key matches some source
row are updated from the first such row; source rows matching no target
row are inserted at the end. -/
def mergeTables (target source : Table) (keys : List String) : Table :=
  ⟨target.cols,
   target.rows.map (fun tr =>
     match source.rows.find? (fun sr => Row.proj sr keys = Row.proj tr keys) with
     | some sr => updateRow tr sr source.cols keys
     | none => tr)
   ++ (source.rows.filter (fun sr =>
        !(target.rows.any (fun tr => Row.proj tr keys = Row.proj sr keys)))).map
      (insertRow target.cols source.cols)⟩

/-- Embedding of `merge(df, table_name, merge_keys, temp_table_prefix)`
(snowflake_loader.py:184-232) as a state transformer on the warehouse:
stage the rows in `prefix+table_name` via `load(..., if_exists=
"replace")` (which does nothing for an empty frame and the later merge
then fails against the missing staging table), issue the merge
statement (`mergeOk` is the oracle for the warehouse accepting it, and a
missing target also raises), and — only reached when the merge statement
did not raise — drop the staging table.  Returns the final warehouse
state together with the raised error, if any. -/
def merge (wh : Warehouse) (df : Table) (table_name : String)
    (merge_keys : List String) (tempPre : String) (mergeOk : Bool) :
    Warehouse × Option String :=
  let temp := tempPre ++ table_name
  if df.rows.isEmpty then
    (wh, some "merge failed: staging table was not created")
  else
    let wh := wh.setTable temp df
    if mergeOk then
      match wh.getTable table_name with
      | none => (wh, some "target table does not exist")
      | some target =>
        let wh := wh.setTable table_name (mergeTables target df merge_keys)
        let wh := wh.dropTable temp
        (wh, none)
    else (wh, some "merge statement failed")

end SnowflakeLoader

/- ===== the Transform Engine as a store of tables =====

`DataTransformer.__init__` (data_transformer.py:18-26) stores
`df.copy()`: the engine owns a fresh cell holding the value of the
caller's table, and every chainable operation reassigns `self.df`, i.e.
writes that one cell.  The store is the list of live tables; the
caller's tables occupy their existing cells and construction appends the
copy at the end. -/

/-- One chainable engine operation, with its parameters. -/
inductive EngineOp where
  | dropNullsOp (columns : Option (List String)) (how : String) : EngineOp
  | fillNullsOp (fill_values : List (String × Value)) : EngineOp
  | dropDuplicatesOp (columns : Option (List String)) (keep : String) : EngineOp
  | renameColumnsOp (m : List (String × String)) : EngineOp
  | selectColumnsOp (columns : List String) : EngineOp
  | addColumnOp (name : String) (value : Value ⊕ (Row → Value)) : EngineOp
  | convertTypesOp (m : List (String × DataTransformer.DType)) : EngineOp
  | filterRowsOp (condition : Row → Bool) : EngineOp
  | standardizeTextOp (columns : List String) (case : String) : EngineOp
  | addWeatherSeverityOp : EngineOp
  | categorizeOrdersOp (amount_column : String) : EngineOp
  | addFiscalInfoOp (date_column : String) (startMonth : Int) : EngineOp
  | correlateOp (purchaseIdx : Nat) (wd pdc wl pl : String) : EngineOp

/-- The effect of one chainable operation on the engine's wrapped
table. -/
def EngineOp.applyTable : EngineOp → Table → Except String Table
  | .dropNullsOp cs how, t => DataTransformer.drop_nulls t cs how
  | .fillNullsOp m, t => .ok (DataTransformer.fill_nulls t m)
  | .dropDuplicatesOp cs keep, t => DataTransformer.drop_duplicates t cs keep
  | .renameColumnsOp m, t => .ok (DataTransformer.rename_columns t m)
  | .selectColumnsOp cs, t => DataTransformer.select_columns t cs
  | .addColumnOp n v, t => .ok (DataTransformer.add_column t n v)
  | .convertTypesOp m, t => DataTransformer.convert_types t m
  | .filterRowsOp p, t => .ok (DataTransformer.filter_rows t p)
  | .standardizeTextOp cs c, t => .ok (DataTransformer.standardize_text t cs c)
  | .addWeatherSeverityOp, t => .ok (WeatherTransformer.add_weather_severity t)
  | .categorizeOrdersOp c, t => PurchaseOrderTransformer.categorize_orders t c
  | .addFiscalInfoOp c m, t => PurchaseOrderTransformer.add_fiscal_info t c m
  | .correlateOp _ _ _ _ _, t => .ok t

/-- One engine step on the store.  Every chainable operation writes only
the engine's own cell (`self.df = ...`); `correlate_with_purchases`
copies both inputs (weather_transformer.py:278,280), computes the
correlated table for its caller and writes no cell at all — its
only store effect is the possible `pd.to_datetime` error. -/
def engineStep (eng : Nat) (store : List Table) (op : EngineOp) :
    Except String (List Table) :=
  match op with
  | .correlateOp pIdx wd pdc wl pl =>
    (WeatherTransformer.correlate_with_purchases
      (store.getD eng ⟨[], []⟩) (store.getD pIdx ⟨[], []⟩) wd pdc wl pl).map
      (fun _ => store)
  | _ =>
    (op.applyTable (store.getD eng ⟨[], []⟩)).map (fun t => store.set eng t)

/-- A chained sequence of engine operations. -/
def runOps (eng : Nat) : List EngineOp → List Table → Except String (List Table)
  | [], store => .ok store
  | op :: ops, store =>
    match engineStep eng store op with
    | .error e => .error e
    | .ok store2 => runOps eng ops store2

/-- Engine construction (data_transformer.py:25, `self.df = df.copy()`):
allocate a fresh cell holding a copy of the caller's table; the engine's
index is the old store length. -/
def newEngine (store : List Table) (callerIdx : Nat) : List Table × Nat :=
  (store ++ [store.getD callerIdx ⟨[], []⟩], store.length)

/- ===== shared lemmas ===== -/

theorem lookup_filter_keyPred {β : Type} {c : String} (q : String → Bool)
    (hq : q c = true) :
    ∀ l : List (String × β),
      List.lookup c (l.filter (fun p => q p.1)) = List.lookup c l := by
  intro l
  induction l with
  | nil => rfl
  | cons p l ih =>
    rcases p with ⟨a, w⟩
    by_cases hqa : q a = true
    · rw [List.filter_cons]
      simp only [hqa, if_pos trivial]
      by_cases hca : c = a
      · subst hca
        simp [List.lookup_cons]
      · have hne : (c == a) = false := by simpa using hca
        simp [List.lookup_cons, hne, ih]
    · have hca : c ≠ a := fun e => hqa (e ▸ hq)
      have hne : (c == a) = false := by simpa using hca
      rw [List.filter_cons]
      simp only [hqa]
      simp [List.lookup_cons, hne, ih]

theorem lookup_dropCols {ds : List String} {c : String}
    (hc : ds.contains c = false) (r : Row) :
    List.lookup c (r.dropCols ds) = List.lookup c r :=
  lookup_filter_keyPred (fun k => !(ds.contains k)) (by simp_all) r

theorem valueAt_dropCols {ds : List String} {c : String}
    (hc : ds.contains c = false) (r : Row) :
    Row.valueAt (r.dropCols ds) c = Row.valueAt r c := by
  simp [Row.valueAt, lookup_dropCols hc]

theorem lookup_overwrite_ne {c c' : String} (v : Value) (h : c ≠ c') :
    ∀ l : Row,
    List.lookup c (l.map (fun p => if p.1 = c' then (p.1, v) else p)) =
      List.lookup c l := by
  intro l
  induction l with
  | nil => rfl
  | cons p l ih =>
    rcases p with ⟨a, w⟩
    by_cases ha : a = c'
    · subst ha
      have hne : (c == a) = false := by simpa using h
      simp [List.lookup_cons, hne, ih]
    · simp only [List.map_cons, if_neg ha]
      by_cases hca : c = a
      · subst hca
        simp [List.lookup_cons]
      · have hne : (c == a) = false := by simpa using hca
        simp [List.lookup_cons, hne, ih]

theorem lookup_overwrite_self {c' : String} (v : Value) :
    ∀ l : Row, (List.lookup c' l).isSome = true →
    List.lookup c' (l.map (fun p => if p.1 = c' then (p.1, v) else p)) =
      some v := by
  intro l
  induction l with
  | nil => intro h; simp at h
  | cons p l ih =>
    rcases p with ⟨a, w⟩
    intro h
    by_cases ha : a = c'
    · subst ha
      simp [List.lookup_cons]
    · have hne : (c' == a) = false := by simpa using fun e => ha e.symm
      simp only [List.map_cons, if_neg ha]
      simp only [List.lookup_cons, hne] at h ⊢
      exact ih h

theorem lookup_setCol_self (r : Row) (c : String) (v : Value) :
    List.lookup c (r.setCol c v) = some v := by
  unfold Row.setCol
  by_cases h : (List.lookup c r).isSome
  · simp only [h, if_true]
    exact lookup_overwrite_self v r h
  · rw [if_neg h]
    have hnone : List.lookup c r = none := by
      cases hh : List.lookup c r
      · rfl
      · rw [hh] at h; simp at h
    rw [List.lookup_append, hnone]
    simp [List.lookup_cons]

theorem lookup_setCol_ne (r : Row) {c c' : String} (v : Value) (h : c ≠ c') :
    List.lookup c (r.setCol c' v) = List.lookup c r := by
  unfold Row.setCol
  by_cases hs : (List.lookup c' r).isSome
  · simp only [hs, if_true]
    exact lookup_overwrite_ne v h r
  · have hne : (c == c') = false := by simpa using h
    rw [if_neg hs, List.lookup_append]
    simp [List.lookup_cons, hne]

theorem valueAt_setCol_self (r : Row) (c : String) (v : Value) :
    Row.valueAt (r.setCol c v) c = v := by
  simp [Row.valueAt, lookup_setCol_self]

theorem valueAt_setCol_ne (r : Row) {c c' : String} (v : Value) (h : c ≠ c') :
    Row.valueAt (r.setCol c' v) c = Row.valueAt r c := by
  simp [Row.valueAt, lookup_setCol_ne r v h]

/- ===== claim C4 ===== -/

/-- C4, counterexample: the claim says a row with temperature 20°F,
precipitation 0 and wind 0 scores 1 and is NORMAL, but the code's first
temperature band (`temp < 32`) contributes 2, so the score is 2 and the
classification MODERATE, not NORMAL. -/
theorem claim_C4_counterexample :
    WeatherTransformer.severity_score
      [("TEMPERATURE_F", Value.num 20), ("PRECIPITATION_INCHES", Value.num 0),
       ("WIND_SPEED_MPH", Value.num 0)] = 2
    ∧ ¬ WeatherTransformer.severity_score
      [("TEMPERATURE_F", Value.num 20), ("PRECIPITATION_INCHES", Value.num 0),
       ("WIND_SPEED_MPH", Value.num 0)] = 1
    ∧ WeatherTransformer.calculate_severity
      [("TEMPERATURE_F", Value.num 20), ("PRECIPITATION_INCHES", Value.num 0),
       ("WIND_SPEED_MPH", Value.num 0)] = "MODERATE"
    ∧ ¬ WeatherTransformer.calculate_severity
      [("TEMPERATURE_F", Value.num 20), ("PRECIPITATION_INCHES", Value.num 0),
       ("WIND_SPEED_MPH", Value.num 0)] = "NORMAL" := by
  refine ⟨by decide, by decide, by decide, by decide⟩

/-- C4, amended: a row with temperature 20°F, precipitation 0 and wind 0
scores 2 (temperature below 32°F contributes 2) and is classified
MODERATE; a row with temperature 25°F and precipitation 1.2 inches
scores 4 and is classified SEVERE, also through the table-level
`add_weather_severity`. -/
theorem claim_C4_amended :
    WeatherTransformer.severity_score
      [("TEMPERATURE_F", Value.num 20), ("PRECIPITATION_INCHES", Value.num 0),
       ("WIND_SPEED_MPH", Value.num 0)] = 2
    ∧ WeatherTransformer.calculate_severity
      [("TEMPERATURE_F", Value.num 20), ("PRECIPITATION_INCHES", Value.num 0),
       ("WIND_SPEED_MPH", Value.num 0)] = "MODERATE"
    ∧ WeatherTransformer.severity_score
      [("TEMPERATURE_F", Value.num 25), ("PRECIPITATION_INCHES", Value.num (1.2 : ℚ))] = 4
    ∧ WeatherTransformer.calculate_severity
      [("TEMPERATURE_F", Value.num 25), ("PRECIPITATION_INCHES", Value.num (1.2 : ℚ))] = "SEVERE"
    ∧ WeatherTransformer.add_weather_severity
      ⟨["TEMPERATURE_F", "PRECIPITATION_INCHES"],
       [[("TEMPERATURE_F", Value.num 25), ("PRECIPITATION_INCHES", Value.num (1.2 : ℚ))]]⟩
      = ⟨["TEMPERATURE_F", "PRECIPITATION_INCHES", "WEATHER_SEVERITY"],
         [[("TEMPERATURE_F", Value.num 25), ("PRECIPITATION_INCHES", Value.num (1.2 : ℚ)),
           ("WEATHER_SEVERITY", Value.str "SEVERE")]]⟩ := by
  have h12 : (1.2 : ℚ) = mkRat 6 5 := by rw [Rat.mkRat_eq_div]; norm_num
  rw [h12]
  refine ⟨by decide, by decide, by decide, by decide, by decide⟩

/- ===== claim C5 ===== -/

/-- C5: `categorize_orders` buckets with inclusive-lower boundaries:
null → UNKNOWN, 99.99 → SMALL, 100 → MEDIUM, 999.99 → MEDIUM,
1000 → LARGE, 9999.99 → LARGE, 10000 → ENTERPRISE; and in general
amounts below 100 are SMALL, below 1000 MEDIUM, below 10000 LARGE and
at least 10000 ENTERPRISE.  The final conjunct runs the table-level
operation over all seven boundary amounts. -/
theorem claim_C5_categorize_boundaries :
    PurchaseOrderTransformer.categorize none = "UNKNOWN"
    ∧ PurchaseOrderTransformer.categorize (some (99.99 : ℚ)) = "SMALL"
    ∧ PurchaseOrderTransformer.categorize (some 100) = "MEDIUM"
    ∧ PurchaseOrderTransformer.categorize (some (999.99 : ℚ)) = "MEDIUM"
    ∧ PurchaseOrderTransformer.categorize (some 1000) = "LARGE"
    ∧ PurchaseOrderTransformer.categorize (some (9999.99 : ℚ)) = "LARGE"
    ∧ PurchaseOrderTransformer.categorize (some 10000) = "ENTERPRISE"
    ∧ (∀ q : ℚ, q < 100 → PurchaseOrderTransformer.categorize (some q) = "SMALL")
    ∧ (∀ q : ℚ, 100 ≤ q → q < 1000 →
        PurchaseOrderTransformer.categorize (some q) = "MEDIUM")
    ∧ (∀ q : ℚ, 1000 ≤ q → q < 10000 →
        PurchaseOrderTransformer.categorize (some q) = "LARGE")
    ∧ (∀ q : ℚ, 10000 ≤ q →
        PurchaseOrderTransformer.categorize (some q) = "ENTERPRISE")
    ∧ PurchaseOrderTransformer.categorize_orders
        ⟨["TOTAL_AMOUNT"],
         [[("TOTAL_AMOUNT", Value.null)],
          [("TOTAL_AMOUNT", Value.num (99.99 : ℚ))],
          [("TOTAL_AMOUNT", Value.num 100)],
          [("TOTAL_AMOUNT", Value.num (999.99 : ℚ))],
          [("TOTAL_AMOUNT", Value.num 1000)],
          [("TOTAL_AMOUNT", Value.num (9999.99 : ℚ))],
          [("TOTAL_AMOUNT", Value.num 10000)]]⟩ "TOTAL_AMOUNT"
      = .ok ⟨["TOTAL_AMOUNT", "ORDER_CATEGORY"],
         [[("TOTAL_AMOUNT", Value.null), ("ORDER_CATEGORY", Value.str "UNKNOWN")],
          [("TOTAL_AMOUNT", Value.num (99.99 : ℚ)), ("ORDER_CATEGORY", Value.str "SMALL")],
          [("TOTAL_AMOUNT", Value.num 100), ("ORDER_CATEGORY", Value.str "MEDIUM")],
          [("TOTAL_AMOUNT", Value.num (999.99 : ℚ)), ("ORDER_CATEGORY", Value.str "MEDIUM")],
          [("TOTAL_AMOUNT", Value.num 1000), ("ORDER_CATEGORY", Value.str "LARGE")],
          [("TOTAL_AMOUNT", Value.num (9999.99 : ℚ)), ("ORDER_CATEGORY", Value.str "LARGE")],
          [("TOTAL_AMOUNT", Value.num 10000), ("ORDER_CATEGORY", Value.str "ENTERPRISE")]]⟩ := by
  have small : ∀ q : ℚ, q < 100 →
      PurchaseOrderTransformer.categorize (some q) = "SMALL" := by
    intro q h
    simp [PurchaseOrderTransformer.categorize, h]
  have med : ∀ q : ℚ, 100 ≤ q → q < 1000 →
      PurchaseOrderTransformer.categorize (some q) = "MEDIUM" := by
    intro q h1 h2
    simp [PurchaseOrderTransformer.categorize, not_lt.mpr h1, h2]
  have large : ∀ q : ℚ, 1000 ≤ q → q < 10000 →
      PurchaseOrderTransformer.categorize (some q) = "LARGE" := by
    intro q h1 h2
    have h0 : ¬ q < 100 := not_lt.mpr (by linarith)
    simp [PurchaseOrderTransformer.categorize, h0, not_lt.mpr h1, h2]
  have ent : ∀ q : ℚ, 10000 ≤ q →
      PurchaseOrderTransformer.categorize (some q) = "ENTERPRISE" := by
    intro q h1
    have h0 : ¬ q < 100 := not_lt.mpr (by linarith)
    have h2 : ¬ q < 1000 := not_lt.mpr (by linarith)
    simp [PurchaseOrderTransformer.categorize, h0, h2, not_lt.mpr h1]
  have e1 : (99.99 : ℚ) = mkRat 9999 100 := by rw [Rat.mkRat_eq_div]; norm_num
  have e2 : (999.99 : ℚ) = mkRat 99999 100 := by rw [Rat.mkRat_eq_div]; norm_num
  have e3 : (9999.99 : ℚ) = mkRat 999999 100 := by rw [Rat.mkRat_eq_div]; norm_num
  rw [e1, e2, e3]
  exact ⟨by decide, by decide, by decide, by decide, by decide, by decide,
    by decide, small, med, large, ent, by decide⟩

/-- C5 witness: the universally quantified bucket clauses applied at
concrete amounts. -/
theorem claim_C5_witness :
    PurchaseOrderTransformer.categorize (some 50) = "SMALL"
    ∧ PurchaseOrderTransformer.categorize (some 500) = "MEDIUM"
    ∧ PurchaseOrderTransformer.categorize (some 5000) = "LARGE"
    ∧ PurchaseOrderTransformer.categorize (some 50000) = "ENTERPRISE" :=
  ⟨claim_C5_categorize_boundaries.2.2.2.2.2.2.2.1 50 (by norm_num),
   claim_C5_categorize_boundaries.2.2.2.2.2.2.2.2.1 500 (by norm_num) (by norm_num),
   claim_C5_categorize_boundaries.2.2.2.2.2.2.2.2.2.1 5000 (by norm_num) (by norm_num),
   claim_C5_categorize_boundaries.2.2.2.2.2.2.2.2.2.2.1 50000 (by norm_num)⟩

/- ===== claim C7 ===== -/

/-- C7: after `drop_nulls(columns=C, how="any")` no surviving row has a
null in any column of C, and the result's rows are a subsequence of the
input's rows (same order, subset by row identity) over the same
schema. -/
theorem claim_C7_drop_nulls_any (t out : Table) (C : List String)
    (h : DataTransformer.drop_nulls t (some C) "any" = .ok out) :
    (∀ r ∈ out.rows, ∀ c ∈ C, (Row.valueAt r c).isNull = false)
    ∧ out.rows.Sublist t.rows
    ∧ out.cols = t.cols := by
  unfold DataTransformer.drop_nulls at h
  by_cases hg : (some C).isSome ∧ ¬ (C.all (fun c => t.cols.contains c)) = true
  · simp only [Option.getD] at h
    rw [if_pos hg] at h
    exact absurd h (by simp)
  · simp only [Option.getD] at h
    rw [if_neg hg] at h
    have hne : ("any" : String) = "all" ↔ False := by simp
    simp only [hne, if_false] at h
    rw [Except.ok.injEq] at h
    subst h
    refine ⟨?_, List.filter_sublist _, rfl⟩
    intro r hr c hc
    rcases List.mem_filter.mp hr with ⟨_, hkeep⟩
    have := (List.all_eq_true.mp hkeep) c hc
    simpa using this

/-- C7 witness. -/
theorem claim_C7_witness :
    (∀ r ∈ (Table.mk ["a"] [[("a", Value.num 1)]]).rows, ∀ c ∈ ["a"],
      (Row.valueAt r c).isNull = false)
    ∧ (Table.mk ["a"] [[("a", Value.num 1)]]).rows.Sublist
        (Table.mk ["a"] [[("a", Value.null)], [("a", Value.num 1)]]).rows
    ∧ (Table.mk ["a"] [[("a", Value.num 1)]]).cols
        = (Table.mk ["a"] [[("a", Value.null)], [("a", Value.num 1)]]).cols :=
  claim_C7_drop_nulls_any
    ⟨["a"], [[("a", Value.null)], [("a", Value.num 1)]]⟩
    ⟨["a"], [[("a", Value.num 1)]]⟩ ["a"] (by decide)

/- ===== claim C8 ===== -/

theorem dedupFirst_idem (cs : List String) :
    ∀ (l : List Row) (seen : List (List Value)),
      DataTransformer.dedupFirst cs (DataTransformer.dedupFirst cs l seen) seen
        = DataTransformer.dedupFirst cs l seen := by
  intro l
  induction l with
  | nil => intro seen; rfl
  | cons r rs ih =>
    intro seen
    by_cases hs : seen.contains (Row.proj r cs) = true
    · simp only [DataTransformer.dedupFirst, hs, if_true]
      exact ih seen
    · simp only [DataTransformer.dedupFirst, hs, Bool.false_eq_true, if_false]
      rw [ih (Row.proj r cs :: seen)]

/-- C8: `drop_duplicates(columns=C, keep="first")` is idempotent:
applied to its own output it returns that output unchanged. -/
theorem claim_C8_drop_duplicates_idempotent (t out : Table) (C : List String)
    (h : DataTransformer.drop_duplicates t (some C) "first" = .ok out) :
    DataTransformer.drop_duplicates out (some C) "first" = .ok out := by
  unfold DataTransformer.drop_duplicates at h ⊢
  by_cases hg : (some C).isSome ∧ ¬ (C.all (fun c => t.cols.contains c)) = true
  · simp only [Option.getD] at h
    rw [if_pos hg] at h
    exact absurd h (by simp)
  · simp only [Option.getD] at h ⊢
    rw [if_neg hg] at h
    simp only [if_true] at h
    rw [Except.ok.injEq] at h
    subst h
    rw [if_neg (by simpa using hg)]
    simp only [if_true]
    rw [Except.ok.injEq]
    exact congrArg (Table.mk t.cols) (dedupFirst_idem C t.rows [])

/-- C8 witness. -/
theorem claim_C8_witness :
    DataTransformer.drop_duplicates
      ⟨["a"], [[("a", Value.num 1)], [("a", Value.num 2)]]⟩ (some ["a"]) "first"
      = .ok ⟨["a"], [[("a", Value.num 1)], [("a", Value.num 2)]]⟩ :=
  claim_C8_drop_duplicates_idempotent
    ⟨["a"], [[("a", Value.num 1)], [("a", Value.num 1)], [("a", Value.num 2)]]⟩
    ⟨["a"], [[("a", Value.num 1)], [("a", Value.num 2)]]⟩ ["a"] (by decide)

/- ===== claim C2 ===== -/

/-- C2, counterexample: the claim says no type conversion is ever fatal,
but the `datetime` branch calls `pd.to_datetime` without
`errors="coerce"`, so an unparseable date raises instead of becoming
null. -/
theorem claim_C2_counterexample :
    DataTransformer.convert_types ⟨["d"], [[("d", Value.str "not_a_date")]]⟩
      [("d", DataTransformer.DType.datetime)]
      = .error "to_datetime: unable to parse" := by decide

theorem numCoerce_null_or_num (v : Value) :
    numCoerce v = Value.null ∨ ∃ q : ℚ, numCoerce v = Value.num q := by
  cases v with
  | null => exact Or.inl rfl
  | num q => exact Or.inr ⟨q, rfl⟩
  | boolean b => exact Or.inr ⟨if b then 1 else 0, rfl⟩
  | dt d t => exact Or.inl rfl
  | date d => exact Or.inl rfl
  | str s =>
    simp only [numCoerce]
    cases hq : parseRat s.data with
    | none => exact Or.inl rfl
    | some q => exact Or.inr ⟨q, rfl⟩

theorem convert_types_single (t : Table) (c : String)
    (k : DataTransformer.DType) :
    DataTransformer.convert_types t [(c, k)] = DataTransformer.convertOne t c k := by
  cases h : DataTransformer.convertOne t c k <;>
    simp [DataTransformer.convert_types, h]

/-- C2, amended: the numeric `float` conversion is never fatal — an
unparseable value is coerced to null in place, a parseable one becomes
its number, and the converted column holds only numbers and nulls — but
the `datetime` conversion raises on an unparseable value (shown by the
counterexample) instead of nulling it. -/
theorem claim_C2_amended :
    (∀ (t : Table) (c : String),
      (DataTransformer.convert_types t [(c, DataTransformer.DType.float)]).isOk
        = true)
    ∧ (∀ s : String, parseRat s.data = none → numCoerce (.str s) = Value.null)
    ∧ (∀ (s : String) (q : ℚ), parseRat s.data = some q →
        numCoerce (.str s) = Value.num q)
    ∧ (∀ (t : Table) (c : String) (out : Table),
        t.cols.contains c = true →
        DataTransformer.convert_types t [(c, DataTransformer.DType.float)]
          = .ok out →
        out.cols = t.cols ∧
        ∀ r ∈ out.rows, ∀ p ∈ r, p.1 = c →
          p.2 = Value.null ∨ ∃ q : ℚ, p.2 = Value.num q) := by
  refine ⟨?_, ?_, ?_, ?_⟩
  · intro t c
    rw [convert_types_single]
    simp only [DataTransformer.convertOne]
    by_cases hc : t.cols.contains c = true
    · rw [if_pos hc]; rfl
    · rw [if_neg hc]; rfl
  · intro s hs
    simp only [numCoerce]
    rw [hs]
  · intro s q hs
    simp only [numCoerce]
    rw [hs]
  · intro t c out hc h
    rw [convert_types_single] at h
    simp only [DataTransformer.convertOne] at h
    rw [if_pos hc, Except.ok.injEq] at h
    subst h
    refine ⟨rfl, ?_⟩
    intro r hr p hp hpc
    rcases List.mem_map.mp hr with ⟨r0, _, rfl⟩
    rcases List.mem_map.mp hp with ⟨p0, _, rfl⟩
    by_cases h0 : p0.1 = c
    · rw [if_pos h0]
      exact numCoerce_null_or_num p0.2
    · rw [if_neg h0] at hpc
      exact absurd hpc h0

/-- C2 witness. -/
theorem claim_C2_witness :
    (DataTransformer.convert_types ⟨["a"], [[("a", Value.str "x")]]⟩
      [("a", DataTransformer.DType.float)]).isOk = true
    ∧ numCoerce (.str "abc") = Value.null
    ∧ numCoerce (.str "1.5") = Value.num (mkRat 3 2)
    ∧ ((Table.mk ["a"] [[("a", Value.null)]]).cols = ["a"]
       ∧ ∀ r ∈ (Table.mk ["a"] [[("a", Value.null)]]).rows, ∀ p ∈ r, p.1 = "a" →
          p.2 = Value.null ∨ ∃ q : ℚ, p.2 = Value.num q) :=
  ⟨claim_C2_amended.1 ⟨["a"], [[("a", Value.str "x")]]⟩ "a",
   claim_C2_amended.2.1 "abc" (by decide),
   claim_C2_amended.2.2.1 "1.5" (mkRat 3 2) (by decide),
   claim_C2_amended.2.2.2 ⟨["a"], [[("a", Value.str "x")]]⟩ "a"
     ⟨["a"], [[("a", Value.null)]]⟩ (by decide) (by decide)⟩

/- ===== claim C3 ===== -/

theorem lookup_keyMap_self {β : Type} {n : String} (t : β) :
    ∀ w : List (String × β), (List.lookup n w).isSome = true →
    List.lookup n (w.map (fun p => if p.1 = n then (p.1, t) else p)) = some t := by
  intro w
  induction w with
  | nil => intro h; simp at h
  | cons p l ih =>
    rcases p with ⟨a, x⟩
    intro h
    by_cases ha : a = n
    · subst ha
      simp [List.lookup_cons]
    · have hne : (n == a) = false := by simpa using fun e => ha e.symm
      simp only [List.map_cons, if_neg ha]
      simp only [List.lookup_cons, hne] at h ⊢
      exact ih h

theorem lookup_keyMap_ne {β : Type} {n n' : String} (t : β) (h : n ≠ n') :
    ∀ w : List (String × β),
    List.lookup n (w.map (fun p => if p.1 = n' then (p.1, t) else p)) =
      List.lookup n w := by
  intro w
  induction w with
  | nil => rfl
  | cons p l ih =>
    rcases p with ⟨a, x⟩
    by_cases ha : a = n'
    · subst ha
      have hne : (n == a) = false := by simpa using h
      simp [List.lookup_cons, hne, ih]
    · simp only [List.map_cons, if_neg ha]
      by_cases hna : n = a
      · subst hna
        simp [List.lookup_cons]
      · have hne : (n == a) = false := by simpa using hna
        simp [List.lookup_cons, hne, ih]

theorem getTable_setTable_self (w : Warehouse) (n : String) (t : Table) :
    (w.setTable n t).getTable n = some t := by
  unfold Warehouse.setTable Warehouse.getTable
  by_cases h : (List.lookup n w).isSome = true
  · rw [if_pos h]
    exact lookup_keyMap_self t w h
  · rw [if_neg h]
    simp [List.lookup_cons]

theorem getTable_setTable_ne (w : Warehouse) {n n' : String} (t : Table)
    (h : n ≠ n') : (w.setTable n' t).getTable n = w.getTable n := by
  unfold Warehouse.setTable Warehouse.getTable
  by_cases hs : (List.lookup n' w).isSome = true
  · rw [if_pos hs]
    exact lookup_keyMap_ne t h w
  · rw [if_neg hs]
    have hne : (n == n') = false := by simpa using h
    simp [List.lookup_cons, hne]

theorem lookup_keyFilter_self {β : Type} (n : String) :
    ∀ w : List (String × β),
    List.lookup n (w.filter (fun p => p.1 ≠ n)) = none := by
  intro w
  induction w with
  | nil => rfl
  | cons p l ih =>
    rcases p with ⟨a, x⟩
    by_cases ha : a = n
    · subst ha
      have hdrop : (decide ¬((a, x) : String × β).1 = a) = false := by simp
      rw [List.filter_cons]
      simp only [ne_eq, hdrop, Bool.false_eq_true, if_false]
      exact ih
    · have hkeep : (decide ¬((a, x) : String × β).1 = n) = true := by simpa using ha
      rw [List.filter_cons]
      simp only [ne_eq, hkeep, if_true]
      have hne : (n == a) = false := by simpa using fun e => ha e.symm
      simp only [List.lookup_cons, hne]
      exact ih

theorem hasTable_dropTable_self (w : Warehouse) (n : String) :
    (w.dropTable n).hasTable n = false := by
  unfold Warehouse.dropTable Warehouse.hasTable
  rw [lookup_keyFilter_self]
  rfl

theorem getTable_dropTable_ne (w : Warehouse) {n n' : String} (h : n ≠ n') :
    (w.dropTable n').getTable n = w.getTable n := by
  unfold Warehouse.dropTable Warehouse.getTable
  exact lookup_filter_keyPred (fun k => decide ¬(k = n')) (by simpa using h) w

/-- C3, counterexample: the claim says the staging table is absent after
the call completes even when the merge statement raises; but the drop of
the staging table is only executed after a successful merge statement,
so on a raising merge the staging table `TEMP_ORDERS` is still
present. -/
theorem claim_C3_counterexample :
    (SnowflakeLoader.merge
      [("ORDERS", ⟨["K", "V"], [[("K", Value.num 1), ("V", Value.num 0)]]⟩)]
      ⟨["K", "V"], [[("K", Value.num 1), ("V", Value.num 9)]]⟩
      "ORDERS" ["K"] "TEMP_" false).1.hasTable "TEMP_ORDERS" = true
    ∧ (SnowflakeLoader.merge
      [("ORDERS", ⟨["K", "V"], [[("K", Value.num 1), ("V", Value.num 0)]]⟩)]
      ⟨["K", "V"], [[("K", Value.num 1), ("V", Value.num 9)]]⟩
      "ORDERS" ["K"] "TEMP_" false).2.isSome = true := by
  exact ⟨by decide, by decide⟩

/-- C3, amended: merge stages the rows in `TEMP_`+table, issues one
merge statement updating key-matched target rows and inserting the
rest, and drops the staging table when the merge statement succeeds;
when the merge statement raises, the error propagates and the staging
table is NOT dropped — it remains in the warehouse holding the staged
rows. -/
theorem claim_C3_amended (wh : Warehouse) (df : Table) (name : String)
    (keys : List String) (target : Table)
    (hne : df.rows ≠ [])
    (htemp : "TEMP_" ++ name ≠ name)
    (htg : wh.getTable name = some target) :
    ((SnowflakeLoader.merge wh df name keys "TEMP_" true).2 = none
     ∧ (SnowflakeLoader.merge wh df name keys "TEMP_" true).1.hasTable
         ("TEMP_" ++ name) = false
     ∧ (SnowflakeLoader.merge wh df name keys "TEMP_" true).1.getTable name
         = some (SnowflakeLoader.mergeTables target df keys))
    ∧ ((SnowflakeLoader.merge wh df name keys "TEMP_" false).2.isSome = true
     ∧ (SnowflakeLoader.merge wh df name keys "TEMP_" false).1.getTable
         ("TEMP_" ++ name) = some df) := by
  have hempty : df.rows.isEmpty = false := by
    cases hrows : df.rows
    · exact absurd hrows hne
    · rfl
  have hstage : (wh.setTable ("TEMP_" ++ name) df).getTable name = some target := by
    rw [getTable_setTable_ne wh df (Ne.symm htemp)]
    exact htg
  have hsucc : SnowflakeLoader.merge wh df name keys "TEMP_" true
      = (((wh.setTable ("TEMP_" ++ name) df).setTable name
          (SnowflakeLoader.mergeTables target df keys)).dropTable
            ("TEMP_" ++ name), none) := by
    unfold SnowflakeLoader.merge
    rw [hempty]
    simp only [Bool.false_eq_true, if_false, if_true]
    rw [hstage]
  have hfail : SnowflakeLoader.merge wh df name keys "TEMP_" false
      = (wh.setTable ("TEMP_" ++ name) df, some "merge statement failed") := by
    unfold SnowflakeLoader.merge
    rw [hempty]
    simp only [Bool.false_eq_true, if_false]
  constructor
  · rw [hsucc]
    refine ⟨rfl, ?_, ?_⟩
    · exact hasTable_dropTable_self _ _
    · rw [getTable_dropTable_ne _ (Ne.symm htemp)]
      exact getTable_setTable_self _ _ _
  · rw [hfail]
    exact ⟨rfl, getTable_setTable_self _ _ _⟩

/-- C3 witness. -/
theorem claim_C3_witness :
    ((SnowflakeLoader.merge
      [("T", ⟨["K"], [[("K", Value.num 1)]]⟩)] ⟨["K"], [[("K", Value.num 2)]]⟩
      "T" ["K"] "TEMP_" true).2 = none
     ∧ (SnowflakeLoader.merge
      [("T", ⟨["K"], [[("K", Value.num 1)]]⟩)] ⟨["K"], [[("K", Value.num 2)]]⟩
      "T" ["K"] "TEMP_" true).1.hasTable ("TEMP_" ++ "T") = false
     ∧ (SnowflakeLoader.merge
      [("T", ⟨["K"], [[("K", Value.num 1)]]⟩)] ⟨["K"], [[("K", Value.num 2)]]⟩
      "T" ["K"] "TEMP_" true).1.getTable "T"
        = some (SnowflakeLoader.mergeTables ⟨["K"], [[("K", Value.num 1)]]⟩
            ⟨["K"], [[("K", Value.num 2)]]⟩ ["K"]))
    ∧ ((SnowflakeLoader.merge
      [("T", ⟨["K"], [[("K", Value.num 1)]]⟩)] ⟨["K"], [[("K", Value.num 2)]]⟩
      "T" ["K"] "TEMP_" false).2.isSome = true
     ∧ (SnowflakeLoader.merge
      [("T", ⟨["K"], [[("K", Value.num 1)]]⟩)] ⟨["K"], [[("K", Value.num 2)]]⟩
      "T" ["K"] "TEMP_" false).1.getTable ("TEMP_" ++ "T")
        = some ⟨["K"], [[("K", Value.num 2)]]⟩) :=
  claim_C3_amended [("T", ⟨["K"], [[("K", Value.num 1)]]⟩)]
    ⟨["K"], [[("K", Value.num 2)]]⟩ "T" ["K"] ⟨["K"], [[("K", Value.num 1)]]⟩
    (by decide) (by decide) (by decide)

/- ===== claim C6 ===== -/

/-- C6: when the date column exists and its values convert, every output
row whose date cell is a valid timestamp carries
`FISCAL_YEAR = year` (or `year − 1` when the month precedes the fiscal
start month) and `FISCAL_QUARTER = ((month − start) mod 12) div 3 + 1`,
with Python's nonnegative `%`. -/
theorem claim_C6_add_fiscal_info (t out : Table) (s : Int)
    (h1 : 1 ≤ s) (h2 : s ≤ 12)
    (hc : t.cols.contains "ORDER_DATE" = true)
    (h : PurchaseOrderTransformer.add_fiscal_info t "ORDER_DATE" s = .ok out) :
    ∀ r ∈ out.rows, ∀ (d : Date) (tm : Nat),
      Row.valueAt r "ORDER_DATE" = Value.dt d tm →
      Row.valueAt r "FISCAL_YEAR"
        = Value.num (mkRat (if d.month ≥ s then d.year else d.year - 1) 1)
      ∧ Row.valueAt r "FISCAL_QUARTER"
        = Value.num (mkRat (((d.month - s) % 12) / 3 + 1) 1) := by
  unfold PurchaseOrderTransformer.add_fiscal_info at h
  rw [if_neg (by simpa using hc)] at h
  cases htd : t.toDatetimeCol "ORDER_DATE" with
  | error e => rw [htd] at h; exact absurd h (by simp)
  | ok t' =>
    rw [htd] at h
    rw [Except.ok.injEq] at h
    subst h
    intro r hr d tm hdt
    simp only [Table.setCol, List.mem_map] at hr
    rcases hr with ⟨r1, hr1, rfl⟩
    rcases hr1 with ⟨r0, hr0, rfl⟩
    have hOD : ("ORDER_DATE" : String) ≠ "FISCAL_QUARTER" := by decide
    have hOD2 : ("ORDER_DATE" : String) ≠ "FISCAL_YEAR" := by decide
    have hFY : ("FISCAL_YEAR" : String) ≠ "FISCAL_QUARTER" := by decide
    rw [valueAt_setCol_ne _ _ hOD, valueAt_setCol_ne _ _ hOD2] at hdt
    constructor
    · rw [valueAt_setCol_ne _ _ hFY, valueAt_setCol_self]
      rw [hdt]
      rfl
    · rw [valueAt_setCol_self]
      rw [valueAt_setCol_ne _ _ hOD2, hdt]
      rfl

/-- C6 witness: April-start fiscal calendar (s = 4) on a January and a
May order date. -/
theorem claim_C6_witness :
    (1 : Int) ≤ 4 ∧ (4 : Int) ≤ 12
    ∧ (Row.valueAt
        [("ORDER_DATE", Value.dt ⟨2024, 1, 15⟩ 0),
         ("FISCAL_YEAR", Value.num (mkRat 2023 1)),
         ("FISCAL_QUARTER", Value.num (mkRat 4 1))] "FISCAL_YEAR"
        = Value.num (mkRat (if (1 : Int) ≥ 4 then 2024 else 2024 - 1) 1)
      ∧ Row.valueAt
        [("ORDER_DATE", Value.dt ⟨2024, 1, 15⟩ 0),
         ("FISCAL_YEAR", Value.num (mkRat 2023 1)),
         ("FISCAL_QUARTER", Value.num (mkRat 4 1))] "FISCAL_QUARTER"
        = Value.num (mkRat ((((1 : Int) - 4) % 12) / 3 + 1) 1)) := by
  refine ⟨by norm_num, by norm_num, ?_⟩
  exact claim_C6_add_fiscal_info
    ⟨["ORDER_DATE"], [[("ORDER_DATE", Value.str "2024-01-15")]]⟩
    ⟨["ORDER_DATE", "FISCAL_YEAR", "FISCAL_QUARTER"],
     [[("ORDER_DATE", Value.dt ⟨2024, 1, 15⟩ 0),
       ("FISCAL_YEAR", Value.num (mkRat 2023 1)),
       ("FISCAL_QUARTER", Value.num (mkRat 4 1))]]⟩
    4 (by norm_num) (by norm_num) (by decide) (by decide)
    [("ORDER_DATE", Value.dt ⟨2024, 1, 15⟩ 0),
     ("FISCAL_YEAR", Value.num (mkRat 2023 1)),
     ("FISCAL_QUARTER", Value.num (mkRat 4 1))]
    (by decide) ⟨2024, 1, 15⟩ 0 (by decide)

/- ===== claim C10 ===== -/

theorem convertOne_empty (cols : List String) (c : String)
    (k : DataTransformer.DType) :
    DataTransformer.convertOne ⟨cols, []⟩ c k = .ok ⟨cols, []⟩ := by
  cases k with
  | datetime =>
    simp only [DataTransformer.convertOne]
    by_cases hc : (Table.mk cols []).cols.contains c = true
    · rw [if_pos hc]; rfl
    · rw [if_neg hc]
  | float =>
    simp only [DataTransformer.convertOne]
    by_cases hc : (Table.mk cols []).cols.contains c = true
    · rw [if_pos hc]; rfl
    · rw [if_neg hc]
  | int =>
    simp only [DataTransformer.convertOne]
    by_cases hc : (Table.mk cols []).cols.contains c = true
    · rw [if_pos hc]; rfl
    · rw [if_neg hc]

theorem convert_types_empty (cols : List String)
    (m : List (String × DataTransformer.DType)) :
    DataTransformer.convert_types ⟨cols, []⟩ m = .ok ⟨cols, []⟩ := by
  induction m with
  | nil => rfl
  | cons p rest ih =>
    rcases p with ⟨c, k⟩
    simp only [DataTransformer.convert_types, convertOne_empty]
    exact ih

theorem stdOneCol_empty (cols : List String) (c : String) (case : String) :
    DataTransformer.stdOneCol ⟨cols, []⟩ c case = ⟨cols, []⟩ := by
  unfold DataTransformer.stdOneCol
  split_ifs <;> rfl

theorem standardize_text_empty (cols C : List String) (case : String) :
    DataTransformer.standardize_text ⟨cols, []⟩ C case = ⟨cols, []⟩ := by
  unfold DataTransformer.standardize_text
  induction C with
  | nil => rfl
  | cons c C ih =>
    simp only [List.foldl_cons]
    rw [stdOneCol_empty]
    exact ih

/-- C10: every Transform Engine operation applied, with its column
preconditions satisfied, to a table with zero rows succeeds and yields
a table that still has zero rows. -/
theorem claim_C10_empty_table_safety :
    (∀ (cols C : List String) (how : String),
      C.all (fun c => cols.contains c) = true →
      DataTransformer.drop_nulls ⟨cols, []⟩ (some C) how = .ok ⟨cols, []⟩)
    ∧ (∀ (cols : List String) (how : String),
      DataTransformer.drop_nulls ⟨cols, []⟩ none how = .ok ⟨cols, []⟩)
    ∧ (∀ (cols : List String) (m : List (String × Value)),
      DataTransformer.fill_nulls ⟨cols, []⟩ m = ⟨cols, []⟩)
    ∧ (∀ (cols C : List String) (keep : String),
      C.all (fun c => cols.contains c) = true →
      DataTransformer.drop_duplicates ⟨cols, []⟩ (some C) keep = .ok ⟨cols, []⟩)
    ∧ (∀ (cols : List String) (m : List (String × String)),
      (DataTransformer.rename_columns ⟨cols, []⟩ m).rows = [])
    ∧ (∀ (cols C : List String),
      C.all (fun c => cols.contains c) = true →
      DataTransformer.select_columns ⟨cols, []⟩ C = .ok ⟨C, []⟩)
    ∧ (∀ (cols : List String) (n : String) (v : Value ⊕ (Row → Value)),
      (DataTransformer.add_column ⟨cols, []⟩ n v).rows = [])
    ∧ (∀ (cols : List String) (m : List (String × DataTransformer.DType)),
      DataTransformer.convert_types ⟨cols, []⟩ m = .ok ⟨cols, []⟩)
    ∧ (∀ (cols : List String) (p : Row → Bool),
      DataTransformer.filter_rows ⟨cols, []⟩ p = ⟨cols, []⟩)
    ∧ (∀ (cols C : List String) (case : String),
      DataTransformer.standardize_text ⟨cols, []⟩ C case = ⟨cols, []⟩)
    ∧ (∀ cols : List String,
      DataTransformer.get_result ⟨cols, []⟩ = ⟨cols, []⟩) := by
  refine ⟨?_, ?_, ?_, ?_, ?_, ?_, ?_, ?_, ?_, ?_, ?_⟩
  · intro cols C how hC
    unfold DataTransformer.drop_nulls
    rw [if_neg (fun hcontra => hcontra.2 hC)]
    rfl
  · intro cols how
    unfold DataTransformer.drop_nulls
    rw [if_neg (fun hcontra => by simpa using hcontra.1)]
    rfl
  · intro cols m
    rfl
  · intro cols C keep hC
    unfold DataTransformer.drop_duplicates
    rw [if_neg (fun hcontra => hcontra.2 hC)]
    split_ifs <;> rfl
  · intro cols m
    rfl
  · intro cols C hC
    unfold DataTransformer.select_columns
    rw [if_pos hC]
    rfl
  · intro cols n v
    cases v <;> rfl
  · exact convert_types_empty
  · intro cols p
    rfl
  · exact standardize_text_empty
  · intro cols
    rfl

/-- C10 witness: each conjunct at a concrete schema. -/
theorem claim_C10_witness :
    DataTransformer.drop_nulls ⟨["a", "b"], []⟩ (some ["a"]) "any"
      = .ok ⟨["a", "b"], []⟩
    ∧ DataTransformer.drop_nulls ⟨["a"], []⟩ none "any" = .ok ⟨["a"], []⟩
    ∧ DataTransformer.fill_nulls ⟨["a"], []⟩ [("a", Value.num 0)] = ⟨["a"], []⟩
    ∧ DataTransformer.drop_duplicates ⟨["a"], []⟩ (some ["a"]) "first"
      = .ok ⟨["a"], []⟩
    ∧ (DataTransformer.rename_columns ⟨["a"], []⟩ [("a", "b")]).rows = []
    ∧ DataTransformer.select_columns ⟨["a", "b"], []⟩ ["b"] = .ok ⟨["b"], []⟩
    ∧ (DataTransformer.add_column ⟨["a"], []⟩ "n" (Sum.inl (Value.num 1))).rows = []
    ∧ DataTransformer.convert_types ⟨["a"], []⟩
        [("a", DataTransformer.DType.datetime)] = .ok ⟨["a"], []⟩
    ∧ DataTransformer.filter_rows ⟨["a"], []⟩ (fun _ => false) = ⟨["a"], []⟩
    ∧ DataTransformer.standardize_text ⟨["a"], []⟩ ["a"] "upper" = ⟨["a"], []⟩
    ∧ DataTransformer.get_result ⟨["a"], []⟩ = ⟨["a"], []⟩ :=
  ⟨claim_C10_empty_table_safety.1 ["a", "b"] ["a"] "any" (by decide),
   claim_C10_empty_table_safety.2.1 ["a"] "any",
   claim_C10_empty_table_safety.2.2.1 ["a"] [("a", Value.num 0)],
   claim_C10_empty_table_safety.2.2.2.1 ["a"] ["a"] "first" (by decide),
   claim_C10_empty_table_safety.2.2.2.2.1 ["a"] [("a", "b")],
   claim_C10_empty_table_safety.2.2.2.2.2.1 ["a", "b"] ["b"] (by decide),
   claim_C10_empty_table_safety.2.2.2.2.2.2.1 ["a"] "n" (Sum.inl (Value.num 1)),
   claim_C10_empty_table_safety.2.2.2.2.2.2.2.1 ["a"]
     [("a", DataTransformer.DType.datetime)],
   claim_C10_empty_table_safety.2.2.2.2.2.2.2.2.1 ["a"] (fun _ => false),
   claim_C10_empty_table_safety.2.2.2.2.2.2.2.2.2.1 ["a"] ["a"] "upper",
   claim_C10_empty_table_safety.2.2.2.2.2.2.2.2.2.2 ["a"]⟩

/- ===== claim C9 ===== -/

theorem getD_set_ne (l : List Table) (i j : Nat) (t : Table) (h : j ≠ i) :
    (l.set i t).getD j ⟨[], []⟩ = l.getD j ⟨[], []⟩ := by
  simp [List.getD_eq_getElem?_getD, List.getElem?_set_ne (fun e => h e.symm)]

theorem getD_append_lt (l l' : List Table) (i : Nat) (h : i < l.length) :
    (l ++ l').getD i ⟨[], []⟩ = l.getD i ⟨[], []⟩ := by
  simp [List.getD_eq_getElem?_getD, List.getElem?_append, h]

theorem step_default_frame (eng : Nat) (store out : List Table)
    (res : Except String Table)
    (h : res.map (fun t => store.set eng t) = .ok out) :
    ∀ i, i ≠ eng → out.getD i ⟨[], []⟩ = store.getD i ⟨[], []⟩ := by
  intro i hi
  cases res with
  | error e => exact absurd h (by simp [Except.map])
  | ok t =>
    simp only [Except.map] at h
    rw [Except.ok.injEq] at h
    subst h
    exact getD_set_ne store eng i t hi

/-- A single engine step writes at most the engine's own cell. -/
theorem engineStep_frame (eng : Nat) (store out : List Table) (op : EngineOp)
    (h : engineStep eng store op = .ok out) :
    ∀ i, i ≠ eng → out.getD i ⟨[], []⟩ = store.getD i ⟨[], []⟩ := by
  cases op
  case correlateOp pIdx wd pdc wl pl =>
    intro i hi
    simp only [engineStep] at h
    cases hc : WeatherTransformer.correlate_with_purchases
        (store.getD eng ⟨[], []⟩) (store.getD pIdx ⟨[], []⟩) wd pdc wl pl with
    | error e => rw [hc] at h; exact absurd h (by simp [Except.map])
    | ok t =>
      rw [hc] at h
      simp only [Except.map] at h
      rw [Except.ok.injEq] at h
      subst h
      rfl
  all_goals (simp only [engineStep] at h; exact step_default_frame eng store out _ h)

/-- A chained run of engine steps leaves every cell other than the
engine's own unchanged. -/
theorem runOps_frame (eng : Nat) (ops : List EngineOp) :
    ∀ (s out : List Table), runOps eng ops s = .ok out →
    ∀ i, i ≠ eng → out.getD i ⟨[], []⟩ = s.getD i ⟨[], []⟩ := by
  induction ops with
  | nil =>
    intro s out h i hi
    unfold runOps at h
    rw [Except.ok.injEq] at h
    subst h
    rfl
  | cons op ops ih =>
    intro s out h i hi
    unfold runOps at h
    cases hs : engineStep eng s op with
    | error e => rw [hs] at h; exact absurd h (by simp)
    | ok s2 =>
      rw [hs] at h
      rw [ih s2 out h i hi]
      exact engineStep_frame eng s s2 op hs i hi

/-- C9: the Transform Engine never mutates a table owned by its caller.
Construction stores a copy of the caller's table in a fresh cell, every
chainable operation writes only that cell, and the terminal
`correlate_with_purchases` copies both inputs and writes no cell; thus
after any successful run of engine operations every pre-existing cell —
the constructing caller's table and the purchase table passed to the
correlation — is unchanged. -/
theorem claim_C9_engine_never_mutates_caller (store : List Table)
    (callerIdx : Nat) (ops : List EngineOp) (out : List Table)
    (h : runOps (newEngine store callerIdx).2 ops
          (newEngine store callerIdx).1 = .ok out) :
    ∀ i, i < store.length →
      out.getD i ⟨[], []⟩ = store.getD i ⟨[], []⟩ := by
  intro i hi
  have hne : i ≠ store.length := Nat.ne_of_lt hi
  have hframe := runOps_frame (newEngine store callerIdx).2 ops
    (newEngine store callerIdx).1 out h i (by simpa [newEngine] using hne)
  rw [hframe]
  exact getD_append_lt store _ i hi

/-- C9 witness: a concrete caller table survives a drop-nulls run. -/
theorem claim_C9_witness :
    List.getD [Table.mk ["a"] [[("a", Value.null)], [("a", Value.num 1)]],
               Table.mk ["a"] [[("a", Value.num 1)]]] 0 (Table.mk [] [])
      = List.getD [Table.mk ["a"] [[("a", Value.null)], [("a", Value.num 1)]]] 0
          (Table.mk [] []) :=
  claim_C9_engine_never_mutates_caller
    [Table.mk ["a"] [[("a", Value.null)], [("a", Value.num 1)]]] 0
    [EngineOp.dropNullsOp (some ["a"]) "any"]
    [Table.mk ["a"] [[("a", Value.null)], [("a", Value.num 1)]],
     Table.mk ["a"] [[("a", Value.num 1)]]]
    (by decide) 0 (by decide)

/- ===== claim C1 ===== -/

theorem lookup_isSome_iff_keys (c : String) :
    ∀ l : Row, (List.lookup c l).isSome = (l.map Prod.fst).contains c := by
  intro l
  induction l with
  | nil => rfl
  | cons p l ih =>
    rcases p with ⟨a, w⟩
    by_cases hc : c = a
    · subst hc
      simp [List.lookup_cons]
    · have hne : (c == a) = false := by simpa using hc
      have hne2 : (a == c) = false := by simpa using fun e => hc e.symm
      simp [List.lookup_cons, hne, hne2, ih]

theorem entriesMapColM_keys {c : String} {f : Value → Except String Value} :
    ∀ {r r2 : Row}, entriesMapColM c f r = .ok r2 →
      r2.map Prod.fst = r.map Prod.fst := by
  intro r
  induction r with
  | nil =>
    intro r2 h
    simp only [entriesMapColM] at h
    rw [Except.ok.injEq] at h
    subst h
    rfl
  | cons p ps ih =>
    intro r2 h
    simp only [entriesMapColM] at h
    cases hq : (if p.1 = c then (f p.2).map (fun v => (p.1, v)) else .ok p) with
    | error e => rw [hq] at h; exact absurd h (by simp)
    | ok q =>
      rw [hq] at h
      cases hqs : entriesMapColM c f ps with
      | error e => rw [hqs] at h; exact absurd h (by simp)
      | ok qs =>
        rw [hqs] at h
        rw [Except.ok.injEq] at h
        subst h
        have hq1 : q.1 = p.1 := by
          by_cases hp : p.1 = c
          · rw [if_pos hp] at hq
            cases hf : f p.2 with
            | error e => rw [hf] at hq; exact absurd hq (by simp [Except.map])
            | ok v =>
              rw [hf] at hq
              simp only [Except.map] at hq
              rw [Except.ok.injEq] at hq
              subst hq
              rfl
          · rw [if_neg hp] at hq
            rw [Except.ok.injEq] at hq
            subst hq
            rfl
        simp only [List.map_cons, hq1]
        rw [ih hqs]

theorem rowsMapColM_keys {c : String} {f : Value → Except String Value} :
    ∀ {rs rs2 : List Row}, rowsMapColM c f rs = .ok rs2 →
      ∀ r2 ∈ rs2, ∃ r ∈ rs, r2.map Prod.fst = r.map Prod.fst := by
  intro rs
  induction rs with
  | nil =>
    intro rs2 h r2 hr2
    simp only [rowsMapColM] at h
    rw [Except.ok.injEq] at h
    subst h
    exact absurd hr2 (by simp)
  | cons r rs ih =>
    intro rs2 h r2 hr2
    simp only [rowsMapColM] at h
    cases hr : entriesMapColM c f r with
    | error e => rw [hr] at h; exact absurd h (by simp)
    | ok q =>
      rw [hr] at h
      cases hrs : rowsMapColM c f rs with
      | error e => rw [hrs] at h; exact absurd h (by simp)
      | ok qs =>
        rw [hrs] at h
        rw [Except.ok.injEq] at h
        subst h
        rcases List.mem_cons.mp hr2 with he | hm
        · subst he
          exact ⟨r, List.mem_cons_self r rs, entriesMapColM_keys hr⟩
        · rcases ih hrs r2 hm with ⟨r0, hr0, hk⟩
          exact ⟨r0, List.mem_cons_of_mem r hr0, hk⟩

theorem WF_mapColM {t t2 : Table} {c : String}
    {f : Value → Except String Value}
    (hwf : t.WF) (h : t.mapColM c f = .ok t2) : t2.WF := by
  unfold Table.mapColM at h
  cases hrs : rowsMapColM c f t.rows with
  | error e => rw [hrs] at h; exact absurd h (by simp)
  | ok rs =>
    rw [hrs] at h
    rw [Except.ok.injEq] at h
    subst h
    intro r2 hr2
    rcases rowsMapColM_keys hrs r2 hr2 with ⟨r, hr, hk⟩
    rw [hk]
    exact hwf r hr

theorem keys_overwrite (c : String) (v : Value) :
    ∀ l : Row,
      (l.map (fun p => if p.1 = c then (p.1, v) else p)).map Prod.fst
        = l.map Prod.fst := by
  intro l
  induction l with
  | nil => rfl
  | cons q qs ih =>
    by_cases hq : q.1 = c
    · simp only [List.map_cons, if_pos hq, ih]
    · simp only [List.map_cons, if_neg hq, ih]

theorem keys_setCol (r : Row) (c : String) (v : Value) :
    (r.setCol c v).map Prod.fst =
      if (r.map Prod.fst).contains c then r.map Prod.fst
      else r.map Prod.fst ++ [c] := by
  unfold Row.setCol
  rw [lookup_isSome_iff_keys]
  by_cases hc : (r.map Prod.fst).contains c = true
  · rw [if_pos hc, if_pos hc]
    exact keys_overwrite c v r
  · rw [if_neg hc, if_neg hc]
    simp

theorem WF_setCol {t : Table} (hwf : t.WF) (c : String) (g : Row → Value) :
    (t.setCol c g).WF := by
  intro r2 hr2
  unfold Table.setCol at hr2 ⊢
  simp only [List.mem_map] at hr2
  rcases hr2 with ⟨r, hr, rfl⟩
  rw [keys_setCol, hwf r hr]

theorem mergeRowsFor_length (right : Table) (onCols : List String)
    (rightOut : List (String × String)) (lr : Row) :
    (WeatherTransformer.mergeRowsFor right onCols rightOut lr).length
      = max (right.rows.countP
          (fun rr => Row.proj rr onCols = Row.proj lr onCols)) 1 := by
  unfold WeatherTransformer.mergeRowsFor
  rw [List.countP_eq_length_filter]
  by_cases hms : (right.rows.filter
      (fun rr => decide (Row.proj rr onCols = Row.proj lr onCols))).isEmpty = true
  · rw [if_pos hms]
    rw [List.isEmpty_iff] at hms
    rw [hms]
    rfl
  · rw [if_neg hms]
    rw [List.length_map]
    have hne : (right.rows.filter
        (fun rr => decide (Row.proj rr onCols = Row.proj lr onCols))) ≠ [] := by
      intro he
      rw [he] at hms
      exact hms rfl
    have hpos : 1 ≤ (right.rows.filter
        (fun rr => decide (Row.proj rr onCols = Row.proj lr onCols))).length := by
      rcases List.exists_mem_of_ne_nil _ hne with ⟨x, hx⟩
      exact List.length_pos_of_mem hx
    exact (Nat.max_eq_left hpos).symm

theorem mergeRowsFor_shape (right : Table) (onCols : List String)
    (rightOut : List (String × String)) (lr : Row) :
    ∀ r ∈ WeatherTransformer.mergeRowsFor right onCols rightOut lr,
      ∃ wpart : Row, r = lr ++ wpart
        ∧ wpart.map Prod.fst = rightOut.map Prod.snd := by
  intro r hr
  unfold WeatherTransformer.mergeRowsFor at hr
  by_cases hms : (right.rows.filter
      (fun rr => decide (Row.proj rr onCols = Row.proj lr onCols))).isEmpty = true
  · rw [if_pos hms] at hr
    rw [List.mem_singleton] at hr
    subst hr
    refine ⟨_, rfl, ?_⟩
    rw [List.map_map]
    rfl
  · rw [if_neg hms] at hr
    rcases List.mem_map.mp hr with ⟨rr, _, rfl⟩
    refine ⟨_, rfl, ?_⟩
    rw [List.map_map]
    rfl

theorem mergeRowsFor_unmatched (right : Table) (onCols : List String)
    (rightOut : List (String × String)) (lr : Row)
    (h : right.rows.countP
        (fun rr => Row.proj rr onCols = Row.proj lr onCols) = 0) :
    WeatherTransformer.mergeRowsFor right onCols rightOut lr
      = [lr ++ rightOut.map (fun p => (p.2, Value.null))] := by
  unfold WeatherTransformer.mergeRowsFor
  rw [List.countP_eq_length_filter, List.length_eq_zero] at h
  rw [if_pos (by rw [h]; rfl)]

theorem lookup_pairs_snd {co : String} (v : Value) :
    ∀ l : List (String × String), (l.map Prod.snd).contains co = true →
    List.lookup co (l.map (fun p => (p.2, v))) = some v := by
  intro l
  induction l with
  | nil => intro h; simp at h
  | cons q l ih =>
    intro h
    by_cases hq : co = q.2
    · subst hq
      simp [List.lookup_cons]
    · have hne : (co == q.2) = false := by simpa using hq
      simp only [List.map_cons, List.contains_cons, hne, Bool.false_or] at h
      simp only [List.map_cons, List.lookup_cons, hne]
      exact ih h

theorem valueAt_append_left {r1 : Row} (r2 : Row) {c : String}
    (h : (List.lookup c r1).isSome = true) :
    Row.valueAt (r1 ++ r2) c = Row.valueAt r1 c := by
  unfold Row.valueAt
  rw [List.lookup_append]
  rcases Option.isSome_iff_exists.mp h with ⟨v, hv⟩
  rw [hv]
  rfl

theorem valueAt_append_right {r1 : Row} (r2 : Row) {c : String}
    (h : List.lookup c r1 = none) :
    Row.valueAt (r1 ++ r2) c = Row.valueAt r2 c := by
  unfold Row.valueAt
  rw [List.lookup_append, h, Option.none_or]

theorem contains_filter_pred_false (l : List String) (p : String → Bool)
    (c : String) (hp : p c = false) : (l.filter p).contains c = false := by
  cases hcc : (l.filter p).contains c
  · rfl
  · exfalso
    have hmem : c ∈ l.filter p := by simpa using hcc
    have := (List.mem_filter.mp hmem).2
    rw [hp] at this
    exact Bool.noConfusion this

theorem contains_filter_of_contains_false (l : List String) (p : String → Bool)
    (c : String) (hc : l.contains c = false) :
    (l.filter p).contains c = false := by
  cases hcc : (l.filter p).contains c
  · rfl
  · exfalso
    have hmem : c ∈ l.filter p := by simpa using hcc
    have : c ∈ l := (List.mem_filter.mp hmem).1
    rw [(by simpa using this : l.contains c = true)] at hc
    exact Bool.noConfusion hc

theorem prepare_purchase_WF {weather purchase w' p' : Table}
    {onCols : List String} {wd pdc wl pl : String}
    (hwfp : purchase.WF)
    (hp : WeatherTransformer.prepareCorrelate weather purchase wd pdc wl pl
      = .ok (w', p', onCols)) : p'.WF := by
  unfold WeatherTransformer.prepareCorrelate at hp
  split at hp
  · exact absurd hp (by simp)
  · rename_i w1 hw
    split at hp
    · exact absurd hp (by simp)
    · rename_i p1 hpd
      have hwp1 : p1.WF := WF_mapColM hwfp hpd
      dsimp only at hp
      split at hp
      · rw [Except.ok.injEq, Prod.mk.injEq] at hp
        rcases hp with ⟨_, hp2⟩
        rw [Prod.mk.injEq] at hp2
        rcases hp2 with ⟨hp2, _⟩
        rw [← hp2]
        exact WF_setCol (WF_setCol hwp1 _ _) _ _
      · rw [Except.ok.injEq, Prod.mk.injEq] at hp
        rcases hp with ⟨_, hp2⟩
        rw [Prod.mk.injEq] at hp2
        rcases hp2 with ⟨hp2, _⟩
        rw [← hp2]
        exact WF_setCol hwp1 _ _

/-- C1: `correlate_with_purchases` is a left outer join of purchase rows
to weather rows on the synthetic (date, upper-cased location) key.
With `w'`, `p'`, `onCols` the prepared weather side, prepared purchase
side and key columns: the synthetic join-key columns are absent from
the output; the output has one row per (purchase row, matching weather
row) pair, and exactly one row for a purchase row with no match, so
every purchase row appears at least once; each such output row agrees
with its purchase row on all purchase columns; and for an unmatched
purchase row the weather-side fields are all null. -/
theorem claim_C1_correlate_left_join
    (weather purchase w' p' : Table) (onCols : List String) (out : Table)
    (hwfp : purchase.WF)
    (hp : WeatherTransformer.prepareCorrelate weather purchase
      "OBSERVATION_DATE" "ORDER_DATE" "CITY" "DELIVERY_LOCATION"
      = .ok (w', p', onCols))
    (h : WeatherTransformer.correlate_with_purchases weather purchase
      "OBSERVATION_DATE" "ORDER_DATE" "CITY" "DELIVERY_LOCATION" = .ok out) :
    out.cols.contains "JOIN_DATE" = false
    ∧ out.cols.contains "JOIN_LOCATION" = false
    ∧ out.rows.length = (p'.rows.map (fun pr =>
        max (w'.rows.countP
          (fun wr => Row.proj wr onCols = Row.proj pr onCols)) 1)).sum
    ∧ (∀ pr ∈ p'.rows, ∃ r ∈ out.rows,
        ∀ c ∈ p'.cols, c ≠ "JOIN_DATE" → c ≠ "JOIN_LOCATION" →
          Row.valueAt r c = Row.valueAt pr c)
    ∧ (∀ pr ∈ p'.rows,
        w'.rows.countP
          (fun wr => Row.proj wr onCols = Row.proj pr onCols) = 0 →
        ∃ r ∈ out.rows,
          (∀ c ∈ p'.cols, c ≠ "JOIN_DATE" → c ≠ "JOIN_LOCATION" →
            Row.valueAt r c = Row.valueAt pr c)
          ∧ ∀ co ∈ (WeatherTransformer.mergeRightCols p'.cols w'.cols onCols
              "_WEATHER").map Prod.snd,
              p'.cols.contains co = false → co ≠ "JOIN_DATE" →
              co ≠ "JOIN_LOCATION" →
              Row.valueAt r co = Value.null) := by
  have hwfp' : p'.WF := prepare_purchase_WF hwfp hp
  unfold WeatherTransformer.correlate_with_purchases at h
  rw [hp] at h
  rw [Except.ok.injEq] at h
  subst h
  set M := WeatherTransformer.leftMerge p' w' onCols "_WEATHER" with hM
  set dl := ["JOIN_DATE"] ++
    (if M.cols.contains "JOIN_LOCATION" then ["JOIN_LOCATION"] else [])
    with hdl
  set wOut := WeatherTransformer.mergeRightCols p'.cols w'.cols onCols
    "_WEATHER" with hwOut
  have hcolsM : M.cols = p'.cols ++ wOut.map Prod.snd := by rw [hM]; rfl
  have hrowsM : M.rows
      = p'.rows.flatMap (WeatherTransformer.mergeRowsFor w' onCols wOut) := by
    rw [hM]; rfl
  have hdlJD : dl.contains "JOIN_DATE" = true := by
    rw [hdl]
    by_cases hJL : M.cols.contains "JOIN_LOCATION" = true
    · rw [if_pos hJL]; simp
    · rw [if_neg hJL]; simp
  have hdlother : ∀ c, c ≠ "JOIN_DATE" → c ≠ "JOIN_LOCATION" →
      dl.contains c = false := by
    intro c h1 h2
    rw [hdl]
    by_cases hJL : M.cols.contains "JOIN_LOCATION" = true
    · rw [if_pos hJL]; simp [h1, h2]
    · rw [if_neg hJL]; simp [h1]
  refine ⟨?_, ?_, ?_, ?_, ?_⟩
  · exact contains_filter_pred_false M.cols _ _ (by rw [hdlJD]; rfl)
  · by_cases hJL : M.cols.contains "JOIN_LOCATION" = true
    · have hdlJL : dl.contains "JOIN_LOCATION" = true := by
        rw [hdl, if_pos hJL]; simp
      exact contains_filter_pred_false M.cols _ _ (by rw [hdlJL]; rfl)
    · exact contains_filter_of_contains_false M.cols _ _ (by simpa using hJL)
  · show (M.rows.map (fun r => r.dropCols dl)).length = _
    rw [List.length_map, hrowsM, List.length_flatMap]
    have hfun : (List.length ∘ WeatherTransformer.mergeRowsFor w' onCols wOut)
        = fun pr => max (w'.rows.countP
            (fun wr => Row.proj wr onCols = Row.proj pr onCols)) 1 :=
      funext (fun pr => mergeRowsFor_length w' onCols wOut pr)
    rw [hfun]
  · intro pr hpr
    have hpos : 0 < (WeatherTransformer.mergeRowsFor w' onCols wOut pr).length := by
      rw [mergeRowsFor_length]
      exact lt_of_lt_of_le Nat.zero_lt_one (Nat.le_max_right _ 1)
    obtain ⟨r0, hr0⟩ :=
      List.exists_mem_of_ne_nil _ (List.ne_nil_of_length_pos hpos)
    have hr0M : r0 ∈ M.rows := by
      rw [hrowsM]
      exact List.mem_flatMap.mpr ⟨pr, hpr, hr0⟩
    refine ⟨r0.dropCols dl, List.mem_map_of_mem _ hr0M, ?_⟩
    intro c hc hcJD hcJL
    rcases mergeRowsFor_shape _ _ _ _ r0 hr0 with ⟨wpart, hre, hk⟩
    subst hre
    rw [valueAt_dropCols (hdlother c hcJD hcJL)]
    apply valueAt_append_left
    rw [lookup_isSome_iff_keys, hwfp' pr hpr]
    simpa using hc
  · intro pr hpr hcount
    have hblock := mergeRowsFor_unmatched w' onCols wOut pr hcount
    have hr0 : pr ++ wOut.map (fun p => (p.2, Value.null))
        ∈ WeatherTransformer.mergeRowsFor w' onCols wOut pr := by
      rw [hblock]
      exact List.mem_singleton_self _
    have hr0M : pr ++ wOut.map (fun p => (p.2, Value.null)) ∈ M.rows := by
      rw [hrowsM]
      exact List.mem_flatMap.mpr ⟨pr, hpr, hr0⟩
    refine ⟨(pr ++ wOut.map (fun p => (p.2, Value.null))).dropCols dl,
      List.mem_map_of_mem _ hr0M, ?_, ?_⟩
    · intro c hc h1 h2
      rw [valueAt_dropCols (hdlother c h1 h2)]
      apply valueAt_append_left
      rw [lookup_isSome_iff_keys, hwfp' pr hpr]
      simpa using hc
    · intro co hco hpc h1 h2
      rw [valueAt_dropCols (hdlother co h1 h2)]
      rw [valueAt_append_right]
      · unfold Row.valueAt
        rw [lookup_pairs_snd Value.null _ (by simpa using hco)]
      · have hiso := lookup_isSome_iff_keys co pr
        rw [hwfp' pr hpr, hpc] at hiso
        cases hlk : List.lookup co pr
        · rfl
        · rw [hlk] at hiso
          exact absurd hiso (by simp)

/-- C1 witness: a one-row weather table joined against a two-row
purchase table, the synthetic key columns absent from the output. -/
theorem claim_C1_witness :
    (Table.mk
      ["ORDER_DATE", "DELIVERY_LOCATION", "TOTAL_AMOUNT",
       "OBSERVATION_DATE", "CITY", "TEMPERATURE_F"]
      [[("ORDER_DATE", Value.dt ⟨2024, 1, 15⟩ 0),
        ("DELIVERY_LOCATION", Value.str "NEW YORK"),
        ("TOTAL_AMOUNT", Value.num 5),
        ("OBSERVATION_DATE", Value.dt ⟨2024, 1, 15⟩ 0),
        ("CITY", Value.str "New York"), ("TEMPERATURE_F", Value.num 30)],
       [("ORDER_DATE", Value.dt ⟨2024, 2, 1⟩ 0),
        ("DELIVERY_LOCATION", Value.str "BOSTON"),
        ("TOTAL_AMOUNT", Value.num 7),
        ("OBSERVATION_DATE", Value.null),
        ("CITY", Value.null), ("TEMPERATURE_F", Value.null)]]).cols.contains
      "JOIN_DATE" = false :=
  (claim_C1_correlate_left_join
    ⟨["OBSERVATION_DATE", "CITY", "TEMPERATURE_F"],
     [[("OBSERVATION_DATE", Value.str "2024-01-15"),
       ("CITY", Value.str "New York"), ("TEMPERATURE_F", Value.num 30)]]⟩
    ⟨["ORDER_DATE", "DELIVERY_LOCATION", "TOTAL_AMOUNT"],
     [[("ORDER_DATE", Value.str "2024-01-15"),
       ("DELIVERY_LOCATION", Value.str "NEW YORK"),
       ("TOTAL_AMOUNT", Value.num 5)],
      [("ORDER_DATE", Value.str "2024-02-01"),
       ("DELIVERY_LOCATION", Value.str "BOSTON"),
       ("TOTAL_AMOUNT", Value.num 7)]]⟩
    ⟨["OBSERVATION_DATE", "CITY", "TEMPERATURE_F", "JOIN_DATE",
      "JOIN_LOCATION"],
     [[("OBSERVATION_DATE", Value.dt ⟨2024, 1, 15⟩ 0),
       ("CITY", Value.str "New York"), ("TEMPERATURE_F", Value.num 30),
       ("JOIN_DATE", Value.date ⟨2024, 1, 15⟩),
       ("JOIN_LOCATION", Value.str "NEW YORK")]]⟩
    ⟨["ORDER_DATE", "DELIVERY_LOCATION", "TOTAL_AMOUNT", "JOIN_DATE",
      "JOIN_LOCATION"],
     [[("ORDER_DATE", Value.dt ⟨2024, 1, 15⟩ 0),
       ("DELIVERY_LOCATION", Value.str "NEW YORK"),
       ("TOTAL_AMOUNT", Value.num 5),
       ("JOIN_DATE", Value.date ⟨2024, 1, 15⟩),
       ("JOIN_LOCATION", Value.str "NEW YORK")],
      [("ORDER_DATE", Value.dt ⟨2024, 2, 1⟩ 0),
       ("DELIVERY_LOCATION", Value.str "BOSTON"),
       ("TOTAL_AMOUNT", Value.num 7),
       ("JOIN_DATE", Value.date ⟨2024, 2, 1⟩),
       ("JOIN_LOCATION", Value.str "BOSTON")]]⟩
    ["JOIN_DATE", "JOIN_LOCATION"]
    ⟨["ORDER_DATE", "DELIVERY_LOCATION", "TOTAL_AMOUNT",
      "OBSERVATION_DATE", "CITY", "TEMPERATURE_F"],
     [[("ORDER_DATE", Value.dt ⟨2024, 1, 15⟩ 0),
       ("DELIVERY_LOCATION", Value.str "NEW YORK"),
       ("TOTAL_AMOUNT", Value.num 5),
       ("OBSERVATION_DATE", Value.dt ⟨2024, 1, 15⟩ 0),
       ("CITY", Value.str "New York"), ("TEMPERATURE_F", Value.num 30)],
      [("ORDER_DATE", Value.dt ⟨2024, 2, 1⟩ 0),
       ("DELIVERY_LOCATION", Value.str "BOSTON"),
       ("TOTAL_AMOUNT", Value.num 7),
       ("OBSERVATION_DATE", Value.null),
       ("CITY", Value.null), ("TEMPERATURE_F", Value.null)]]⟩
    (by decide) (by decide) (by decide)).1
